import Mathlib

/-!
Verification of the ryOS chat backend (`api/chat-rooms` route handler).

The definitions below are a shallow embedding of the TypeScript source:
pure helpers become Lean functions, the Redis key-value store becomes an
explicit state record threaded through each handler, and every fallible
handler returns an `HttpResponse` (status code plus optional error body)
together with the updated state.  The external `bad-words` profanity
filter is a third-party library whose code is not part of the repository;
its `clean` and `isProfane` operations are therefore taken as parameters
of the handlers that use them, and theorems either hold for every such
function or take hypotheses about its behaviour on the concrete inputs
involved.
-/

namespace RyoChat

/-- HTTP response model: status code plus the error body produced by
`createErrorResponse` (success responses carry `none`). -/
structure HttpResponse where
  status : Nat
  error : Option String
  deriving Repr, DecidableEq

/-- `createErrorResponse(message, status)` from the source. -/
def createErrorResponse (message : String) (status : Nat) : HttpResponse :=
  { status := status, error := some message }

/-- Success response with the given status code. -/
def okResponse (status : Nat) : HttpResponse :=
  { status := status, error := none }

/-! ### Input validation and sanitization helpers -/

/-- Separator characters allowed inside a username (`[-_]` in USERNAME_REGEX). -/
def isUsernameSep (c : Char) : Bool :=
  c = '-' || c = '_'

/-- Tail of USERNAME_REGEX after the leading letter: each character is an
ASCII letter/digit, or a separator that must be immediately followed by a
letter/digit (the `(?=[a-z0-9])` lookahead). -/
def usernameTailOk : List Char → Bool
  | [] => true
  | c :: rest =>
    if c.isAlphanum then usernameTailOk rest
    else if isUsernameSep c then
      match rest with
      | [] => false
      | d :: _ => d.isAlphanum && usernameTailOk rest
    else false

/-- Model of `USERNAME_REGEX = /^[a-z](?:[a-z0-9]|[-_](?=[a-z0-9])){2,29}$/i`:
3-30 characters, first an ASCII letter, rest letters/digits with single
separators only between alphanumerics. -/
def usernameOk (s : String) : Bool :=
  match s.toList with
  | [] => false
  | c :: rest =>
    c.isAlpha && decide (3 ≤ s.length) && decide (s.length ≤ 30) && usernameTailOk rest

/-- Model of `ROOM_ID_REGEX = /^[a-z0-9]+$/i`. -/
def roomIdOk (s : String) : Bool :=
  !s.isEmpty && s.toList.all (·.isAlphanum)

/-- JavaScript `toLowerCase()` on the ASCII range (all inputs the claims
concern are ASCII; implemented directly so that it evaluates in the
kernel). -/
def jsToLower (s : String) : String :=
  String.mk (s.data.map Char.toLower)

/-- One step of `escapeHTML`: the replacement applied to a single character
(`&` → `&amp;`, `<` → `&lt;`, `>` → `&gt;`, `"` → `&quot;`, the apostrophe →
`&#39;`, anything else kept). -/
def escapeChar (c : Char) : String :=
  if c.toNat = 38 then "&amp;"
  else if c.toNat = 60 then "&lt;"
  else if c.toNat = 62 then "&gt;"
  else if c.toNat = 34 then "&quot;"
  else if c.toNat = 39 then "&#39;"
  else String.singleton c

/-- `escapeHTML` from the source: escape the five HTML-significant
characters `&<>"'` throughout the string. -/
def escapeHTML (s : String) : String :=
  String.join (s.toList.map escapeChar)

/-! URL recognition, modelling the JavaScript regex
`/(https?:\/\/[^\s]+)/g` used by `filterProfanityPreservingUrls`. -/

/-- Characters matched by JavaScript `\s` (whitespace class). -/
def jsWhitespace (c : Char) : Bool :=
  c.toNat = 0x09 || c.toNat = 0x0A || c.toNat = 0x0B || c.toNat = 0x0C ||
  c.toNat = 0x0D || c.toNat = 0x20 || c.toNat = 0xA0 || c.toNat = 0x1680 ||
  (0x2000 ≤ c.toNat && c.toNat ≤ 0x200A) || c.toNat = 0x2028 ||
  c.toNat = 0x2029 || c.toNat = 0x202F || c.toNat = 0x205F ||
  c.toNat = 0x3000 || c.toNat = 0xFEFF

/-- Strip a literal pattern from the front of a character list. -/
def stripLead : List Char → List Char → Option (List Char)
  | [], rest => some rest
  | _, [] => none
  | p :: ps, c :: cs => if c = p then stripLead ps cs else none

/-- Take the maximal run of non-whitespace characters (`[^\s]+`, greedy). -/
def takeNonSpace : List Char → List Char × List Char
  | [] => ([], [])
  | c :: cs =>
    if jsWhitespace c then ([], c :: cs)
    else
      let p := takeNonSpace cs
      (c :: p.1, p.2)

/-- Match the scheme part `https?:\/\/` at the head of the list (the `s?`
is greedy, so `https://` is tried first); returns the scheme characters
and the remainder. -/
def urlSchemeAt (cs : List Char) : Option (List Char × List Char) :=
  match stripLead "https://".toList cs with
  | some rest => some ("https://".toList, rest)
  | none =>
    match stripLead "http://".toList cs with
    | some rest => some ("http://".toList, rest)
    | none => none

/-- Try to match `https?:\/\/[^\s]+` at the head of the list; on success
return the matched URL characters and the remainder.  At least one
non-whitespace character must follow the scheme (`[^\s]+`); when it is
missing neither alternative of the scheme can match, so the whole match
fails, as in the regex. -/
def urlSpanAt (cs : List Char) : Option (List Char × List Char) :=
  (urlSchemeAt cs).bind (fun p =>
    let t := takeNonSpace p.2
    if t.1.isEmpty then none else some (p.1 ++ t.1, t.2))

theorem stripLead_length {p cs r : List Char} (h : stripLead p cs = some r) :
    r.length + p.length = cs.length := by
  induction p generalizing cs with
  | nil => simp [stripLead] at h; simp [h]
  | cons x xs ih =>
    cases cs with
    | nil => simp [stripLead] at h
    | cons c cs' =>
      simp only [stripLead] at h
      split at h
      · have := ih h
        simp [List.length_cons]
        omega
      · exact absurd h (by simp)

theorem takeNonSpace_snd_length (cs : List Char) :
    (takeNonSpace cs).2.length ≤ cs.length := by
  induction cs with
  | nil => simp [takeNonSpace]
  | cons c cs' ih =>
    simp only [takeNonSpace]
    split
    · simp
    · simpa using Nat.le_succ_of_le ih

theorem urlSchemeAt_length {cs scheme rest : List Char}
    (h : urlSchemeAt cs = some (scheme, rest)) :
    rest.length + scheme.length = cs.length ∧ 0 < scheme.length := by
  unfold urlSchemeAt at h
  cases h1 : stripLead "https://".toList cs with
  | some r1 =>
    rw [h1] at h
    simp at h
    obtain ⟨hs, hr⟩ := h
    subst hs; subst hr
    exact ⟨stripLead_length h1, by decide⟩
  | none =>
    rw [h1] at h
    cases h2 : stripLead "http://".toList cs with
    | some r2 =>
      rw [h2] at h
      simp at h
      obtain ⟨hs, hr⟩ := h
      subst hs; subst hr
      exact ⟨stripLead_length h2, by decide⟩
    | none => rw [h2] at h; exact absurd h (by simp)

theorem urlSpanAt_rest_length {cs u r : List Char}
    (h : urlSpanAt cs = some (u, r)) : r.length < cs.length := by
  unfold urlSpanAt at h
  cases h1 : urlSchemeAt cs with
  | none => rw [h1] at h; exact absurd h (by simp)
  | some p =>
    rw [h1] at h
    simp only [Option.some_bind] at h
    split at h
    · exact absurd h (by simp)
    · simp at h
      obtain ⟨-, hr⟩ := h
      obtain ⟨hlen, hpos⟩ := @urlSchemeAt_length cs p.1 p.2 (by rw [h1])
      have ht : (takeNonSpace p.2).2.length ≤ p.2.length := takeNonSpace_snd_length p.2
      subst hr
      omega

/-- Recursion core of `scanUrls`, structurally recursive on a fuel bound
so that it evaluates in the kernel.  `urlSpanAt` always consumes at least
one character (`urlSpanAt_rest_length`), so fuel `cs.length` never runs
out. -/
def scanUrlsGo : Nat → List Char → List (List Char × List Char) × List Char
  | 0, cs => ([], cs)
  | _ + 1, [] => ([], [])
  | fuel + 1, c :: cs =>
    match urlSpanAt (c :: cs) with
    | some (url, rest) =>
      let p := scanUrlsGo fuel rest
      ((([], url)) :: p.1, p.2)
    | none =>
      let p := scanUrlsGo fuel cs
      match p.1 with
      | [] => ([], c :: p.2)
      | (gap, url) :: ms => ((c :: gap, url) :: ms, p.2)

/-- Scan the content for URL matches, exactly as the `while` loop over
`urlRegex.exec` does: returns the list of (gap-before-URL, URL) pairs in
order, plus the trailing gap after the last URL. -/
def scanUrls (cs : List Char) : List (List Char × List Char) × List Char :=
  scanUrlsGo cs.length cs

/-- `filterProfanityPreservingUrls` from the source, parameterized by the
external profanity filter `clean` (`filter.clean` of the `bad-words`
library).  With no URL in the content the whole string is cleaned; with
URLs, each gap before a URL is cleaned (including empty gaps, as in the
source), URLs are appended unchanged, and a non-empty trailing gap is
cleaned. -/
def filterProfanityPreservingUrls (clean : String → String) (content : String) : String :=
  let p := scanUrls content.toList
  match p.1 with
  | [] => clean content
  | ms =>
    (ms.foldl (fun acc m => acc ++ clean (String.mk m.1) ++ String.mk m.2) "") ++
      (if p.2.isEmpty then "" else clean (String.mk p.2))

/-- The sanitization applied by `handleSendMessage` at line 2389:
profanity-filter (URL-preserving) first, then HTML-escape. -/
def sanitizeContent (clean : String → String) (content : String) : String :=
  escapeHTML (filterProfanityPreservingUrls clean content)

/-! ### Constants from the source -/

def MAX_MESSAGE_LENGTH : Nat := 1000
def MAX_USERNAME_LENGTH : Nat := 30
def MIN_USERNAME_LENGTH : Nat := 3
def CHAT_BURST_SHORT_WINDOW_SECONDS : Nat := 10
def CHAT_BURST_SHORT_LIMIT : Nat := 3
def CHAT_BURST_LONG_WINDOW_SECONDS : Nat := 60
def CHAT_BURST_LONG_LIMIT : Nat := 20
def CHAT_MIN_INTERVAL_SECONDS : Nat := 2
def RATE_LIMIT_WINDOW_SECONDS : Nat := 60
def RATE_LIMIT_ATTEMPTS : Nat := 10
def USER_TTL_SECONDS : Nat := 7776000
def USER_EXPIRATION_TIME : Nat := 7776000
def TOKEN_GRACE_PERIOD : Nat := 86400 * 365

/-- Error message of `assertValidUsername`. -/
def INVALID_USERNAME_MSG : String :=
  "Invalid username: use 3-30 letters/numbers; \x27-\x27 or \x27_\x27 allowed between characters; no spaces or symbols"

/-! ### Data model -/

/-- `User` record (`chat:users:` values). -/
structure User where
  username : String
  lastActive : Nat
  deriving Repr, DecidableEq

/-- `Room` record (`chat:room:` values).  `type` is the literal string
field of the TypeScript object (`"public"`, `"private"`, or absent). -/
structure Room where
  id : String
  name : String
  type : Option String
  createdAt : Nat
  userCount : Nat
  members : Option (List String)
  deriving Repr, DecidableEq

/-- `Message` record, stored newest-first in the per-room list. -/
structure Message where
  id : String
  roomId : String
  username : String
  content : String
  timestamp : Nat
  deriving Repr, DecidableEq

/-- A room together with its active user list (`RoomWithUsers`). -/
structure RoomWithUsers extends Room where
  users : List String
  deriving Repr, DecidableEq

/-- JavaScript truthiness of an optional string: absent or empty is falsy. -/
def jsFalsyStr : Option String → Bool
  | none => true
  | some s => s.isEmpty

/-- `!roomObj.type || roomObj.type === "public"` from `handleSendMessage`. -/
def isPublicRoom (r : Room) : Bool :=
  jsFalsyStr r.type || r.type == some "public"

/-- The chat-side contents of the key-value store, with the rate-limit
burst counters.  `presence` is the set of live `chat:presence:{room}:{user}`
keys; `roomUserSets` are the legacy `chat:room:users:` sets that
`getActiveUsersAndPrune` clears. -/
structure ChatState where
  rooms : List Room
  messages : String → List Message
  users : String → Option User
  presence : List (String × String)
  roomUserSets : String → List String
  shortCount : String → String → Nat
  longCount : String → String → Nat
  lastSent : String → String → Option Nat

/-- Look up `chat:room:{roomId}`. -/
def findRoom (s : ChatState) (roomId : String) : Option Room :=
  s.rooms.find? (fun r => r.id == roomId)

/-- Overwrite the room record with the given id. -/
def setRoomInList (rooms : List Room) (r : Room) : List Room :=
  rooms.map (fun x => if x.id == r.id then r else x)

/-- `getActiveUsersInRoom`: usernames of the live presence keys for a room. -/
def getActiveUsersInRoom (s : ChatState) (roomId : String) : List String :=
  (s.presence.filter (fun p => p.1 == roomId)).map (fun p => p.2)

/-- `getActiveUsersAndPrune`: the active users, deleting the legacy
`chat:room:users:{roomId}` set as a side effect. -/
def getActiveUsersAndPrune (s : ChatState) (roomId : String) : List String × ChatState :=
  (getActiveUsersInRoom s roomId,
   { s with roomUserSets := fun k => if k = roomId then [] else s.roomUserSets k })

/-- `refreshRoomUserCount`: recompute the active-user count from presence
and persist it on the room record when the room exists. -/
def refreshRoomUserCount (s : ChatState) (roomId : String) : Nat × ChatState :=
  let pr := getActiveUsersAndPrune s roomId
  let userCount := pr.1.length
  let s1 := pr.2
  match findRoom s1 roomId with
  | some room =>
    (userCount, { s1 with rooms := setRoomInList s1.rooms { room with userCount := userCount } })
  | none => (userCount, s1)

/-- `ensureUserExists`, parameterized by the external `filter.isProfane`.
Errors are the thrown messages; on success the (possibly just created)
user record and the updated store are returned.  In this sequential model
the atomic `SETNX` creation always succeeds when the record is absent. -/
def ensureUserExists (isProfane : String → Bool) (s : ChatState) (username : String)
    (now : Nat) : Except String (User × ChatState) :=
  if isProfane username then .error "Username contains inappropriate language"
  else if username.length < MIN_USERNAME_LENGTH then
    .error "Username must be at least 3 characters"
  else if username.length > MAX_USERNAME_LENGTH then
    .error "Username must be 30 characters or less"
  else if ¬ usernameOk username then .error "Invalid username format"
  else
    match s.users username with
    | some u => .ok (u, s)
    | none =>
      let newUser : User := { username := username, lastActive := now }
      .ok (newUser, { s with users := fun k => if k = username then some newUser else s.users k })

/-- Point update of a two-key counter map. -/
def bump2 (f : String → String → Nat) (a b : String) (v : Nat) : String → String → Nat :=
  fun x y => if x = a ∧ y = b then v else f x y

/-- Point update of the last-sent map. -/
def setLast (f : String → String → Option Nat) (a b : String) (v : Nat) :
    String → String → Option Nat :=
  fun x y => if x = a ∧ y = b then some v else f x y

/-- The body of `handleSendMessage` after the burst rate-limit block:
room-existence check, user creation, length check on the sanitized
content, duplicate check against the newest stored message, then persist
(push front, trim to 100), update `lastActive`, and succeed with 201. -/
def sendAfterRateLimit (isProfane : String → Bool) (s : ChatState)
    (roomId username sanitized : String) (now : Nat) (newId : String) :
    HttpResponse × ChatState :=
  if (findRoom s roomId).isNone then (createErrorResponse "Room not found" 404, s)
  else
    match ensureUserExists isProfane s username now with
    | .error e =>
      if e = "Username contains inappropriate language" then
        (createErrorResponse "Username contains inappropriate language" 400, s)
      else (createErrorResponse "Failed to verify or create user" 500, s)
    | .ok (userData, s1) =>
      if sanitized.length > MAX_MESSAGE_LENGTH then
        (createErrorResponse "Message exceeds maximum length of 1000 characters" 400, s1)
      else
        let dup : Bool :=
          match (s1.messages roomId).head? with
          | some m => m.username == username && m.content == sanitized
          | none => false
        if dup then (createErrorResponse "Duplicate message detected" 400, s1)
        else
          let msg : Message :=
            { id := newId, roomId := roomId, username := username,
              content := sanitized, timestamp := now }
          let s2 := { s1 with
            messages := fun k =>
              if k = roomId then (msg :: s1.messages roomId).take 100 else s1.messages k }
          let updatedUser : User := { userData with lastActive := now }
          let s3 := { s2 with
            users := fun k => if k = username then some updatedUser else s2.users k }
          (okResponse 201, s3)

/-- `handleSendMessage`: identifier validation, content-required check,
sanitization, the three burst rate-limit rules for public rooms (short
window, long window, minimum interval — each with its own 429 reason),
then the persistence pipeline. -/
def handleSendMessage (clean : String → String) (isProfane : String → Bool)
    (s : ChatState) (roomId usernameRaw content : String) (now : Nat) (newId : String) :
    HttpResponse × ChatState :=
  let username := (jsToLower usernameRaw)
  if ¬ usernameOk username then (createErrorResponse INVALID_USERNAME_MSG 400, s)
  else if ¬ roomIdOk roomId then (createErrorResponse "Invalid room ID format" 400, s)
  else if content.isEmpty then (createErrorResponse "Content is required" 400, s)
  else
    let sanitized := sanitizeContent clean content
    match findRoom s roomId with
    | none => (createErrorResponse "Room not found" 404, s)
    | some room =>
      if isPublicRoom room then
        let sc := s.shortCount roomId username + 1
        let s1 := { s with shortCount := bump2 s.shortCount roomId username sc }
        if sc > CHAT_BURST_SHORT_LIMIT then
          (createErrorResponse "You\x27re sending messages too quickly. Please slow down." 429, s1)
        else
          let lc := s1.longCount roomId username + 1
          let s2 := { s1 with longCount := bump2 s1.longCount roomId username lc }
          if lc > CHAT_BURST_LONG_LIMIT then
            (createErrorResponse "Too many messages in a short period. Please wait a moment." 429, s2)
          else
            let nowSeconds := now / 1000
            let intervalHit : Bool :=
              match s2.lastSent roomId username with
              | some last => nowSeconds - last < CHAT_MIN_INTERVAL_SECONDS
              | none => false
            if intervalHit then
              (createErrorResponse "Please wait a moment before sending another message." 429, s2)
            else
              let s3 := { s2 with lastSent := setLast s2.lastSent roomId username nowSeconds }
              sendAfterRateLimit isProfane s3 roomId username sanitized now newId
      else sendAfterRateLimit isProfane s roomId username sanitized now newId

/-- `handleLeaveRoom`: validation, presence removal, count refresh; for
private rooms the leaver is dropped from `members`, and the room (with
messages and legacy user set) is deleted when at most one member would
remain.  Leaving without a presence record is a no-op success. -/
def handleLeaveRoom (s : ChatState) (roomId usernameRaw : String) : HttpResponse × ChatState :=
  let username := (jsToLower usernameRaw)
  if roomId.isEmpty || username.isEmpty then
    (createErrorResponse "Room ID and username are required" 400, s)
  else if ¬ usernameOk username then (createErrorResponse INVALID_USERNAME_MSG 400, s)
  else if ¬ roomIdOk roomId then (createErrorResponse "Invalid room ID format" 400, s)
  else
    match findRoom s roomId with
    | none => (createErrorResponse "Room not found" 404, s)
    | some roomObj =>
      let removed := s.presence.contains (roomId, username)
      if removed then
        let s1 := { s with presence := s.presence.filter (fun p => p ≠ (roomId, username)) }
        let rc := refreshRoomUserCount s1 roomId
        let userCount := rc.1
        let s2 := rc.2
        if roomObj.type == some "private" then
          let updatedMembers := (roomObj.members.getD []).filter (fun m => m ≠ username)
          if updatedMembers.length ≤ 1 then
            (okResponse 200,
             { s2 with
               rooms := s2.rooms.filter (fun r => r.id ≠ roomId),
               messages := fun k => if k = roomId then [] else s2.messages k,
               roomUserSets := fun k => if k = roomId then [] else s2.roomUserSets k })
          else
            let updatedRoom := { roomObj with members := some updatedMembers, userCount := userCount }
            (okResponse 200, { s2 with rooms := setRoomInList s2.rooms updatedRoom })
        else (okResponse 200, s2)
      else (okResponse 200, s)

/-- `handleGetRoom`: invalid ids surface as 500 via the catch-all, an
absent room is 404, otherwise the count is refreshed and the room
returned. -/
def handleGetRoom (s : ChatState) (roomId : String) : HttpResponse × ChatState :=
  if ¬ roomIdOk roomId then (createErrorResponse "Failed to fetch room" 500, s)
  else
    match findRoom s roomId with
    | none => (createErrorResponse "Room not found" 404, s)
    | some _ =>
      let rc := refreshRoomUserCount s roomId
      (okResponse 200, rc.2)

/-- `getDetailedRooms`: every stored room with its live user list and
recomputed count, pruning the legacy sets. -/
def getDetailedRooms (s : ChatState) : List RoomWithUsers × ChatState :=
  (s.rooms.map (fun r =>
    let activeUsers := getActiveUsersInRoom s r.id
    { toRoom := { r with userCount := activeUsers.length }, users := activeUsers }),
   { s with roomUserSets := fun k =>
      if s.rooms.any (fun r => r.id == k) then [] else s.roomUserSets k })

/-- Visibility predicate of `handleGetRooms` (lines 1152-1164). -/
def roomVisibleTo (room : RoomWithUsers) (username : Option String) : Bool :=
  if jsFalsyStr room.type || room.type == some "public" then true
  else if room.type == some "private" then
    match room.members, username with
    | some ms, some u => ms.contains u
    | _, _ => false
  else false

/-- `handleGetRooms`: the query-string username (lowercased; empty means
anonymous) selects the visible subset of the detailed room list. -/
def handleGetRooms (s : ChatState) (usernameParam : Option String) :
    List RoomWithUsers × ChatState :=
  let username : Option String :=
    match usernameParam with
    | some u => let l := (jsToLower u); if l.isEmpty then none else some l
    | none => none
  let dr := getDetailedRooms s
  (dr.1.filter (fun room => roomVisibleTo room username), dr.2)

/-- `filterRoomsForUser`: the broadcast-side visibility filter. -/
def filterRoomsForUser (rooms : List RoomWithUsers) (username : Option String) :
    List RoomWithUsers :=
  let anonymous :=
    rooms.filter (fun room => jsFalsyStr room.type || room.type == some "public")
  match username with
  | none => anonymous
  | some u =>
    if u.isEmpty then anonymous
    else
      let lower := (jsToLower u)
      rooms.filter (fun room =>
        if jsFalsyStr room.type || room.type == some "public" then true
        else if room.type == some "private" then
          match room.members with
          | some ms => ms.contains lower
          | none => false
        else false)

/-! ### Token authority -/

/-- `AuthResult`: `expired` is optional in the source (`{valid:false}`
carries no `expired` field). -/
structure AuthResult where
  valid : Bool
  expired : Option Bool
  deriving Repr, DecidableEq

/-- The grace-window record stored under `chat:token:last:{username}`. -/
structure TokenData where
  token : String
  expiredAt : Nat
  deriving Repr, DecidableEq

/-- Token-side contents of the key-value store.  TTLs are recorded
explicitly (the `Nat` paired with each entry) so that TTL refreshes can
be stated; expiry of live keys is not simulated — the grace window is
enforced by the explicit `expiredAt` comparison of the source.
 - `userTokens`: `chat:token:user:{username}:{token}` keys with TTL;
 - `tokenUser`: `chat:token:{token}` → username (reverse mapping);
 - `legacy`: `chat:token:{username}` → token (single-token scheme);
 - `last`: `chat:token:last:{username}` grace records;
 - `users`: `chat:users:{username}` records. -/
structure AuthState where
  userTokens : List ((String × String) × Nat)
  tokenUser : String → Option (String × Nat)
  legacy : String → Option (String × Nat)
  last : String → Option (TokenData × Nat)
  users : String → Option User

/-- Look up a user-scoped token key. -/
def lookupUserToken (l : List ((String × String) × Nat)) (u t : String) : Option Nat :=
  (l.find? (fun e => decide (e.1.1 = u ∧ e.1.2 = t))).map (·.2)

/-- `redis.set` on a user-scoped token key. -/
def setUserToken (l : List ((String × String) × Nat)) (u t : String) (ttl : Nat) :
    List ((String × String) × Nat) :=
  ((u, t), ttl) :: l.filter (fun e => ¬(e.1.1 = u ∧ e.1.2 = t))

/-- `redis.expire` on a user-scoped token key (no-op when absent). -/
def expireUserToken (l : List ((String × String) × Nat)) (u t : String) (ttl : Nat) :
    List ((String × String) × Nat) :=
  l.map (fun e => if e.1.1 = u ∧ e.1.2 = t then (e.1, ttl) else e)

/-- Path (d) of `validateAuth`: the grace-window check, reached when all
live-token paths failed. -/
def validateAuthGrace (s : AuthState) (u token : String) (allowExpired : Bool)
    (now : Nat) : AuthResult × AuthState :=
  if allowExpired then
    match s.last u with
    | some p =>
      if p.1.token = token ∧ now < p.1.expiredAt + TOKEN_GRACE_PERIOD * 1000 then
        ({ valid := true, expired := some true }, s)
      else ({ valid := false, expired := none }, s)
    | none => ({ valid := false, expired := none }, s)
  else ({ valid := false, expired := none }, s)

/-- Path (c) of `validateAuth`: the legacy `chat:token:{username}` record;
on a hit its TTL is refreshed and the token migrated to the user-scoped
format. -/
def validateAuthLegacy (s : AuthState) (u token : String) (allowExpired : Bool)
    (now : Nat) : AuthResult × AuthState :=
  match s.legacy u with
  | some p =>
    if ¬p.1.isEmpty ∧ p.1 = token then
      ({ valid := true, expired := some false },
       { s with
         legacy := fun k => if k = u then some (p.1, USER_TTL_SECONDS) else s.legacy k,
         userTokens := setUserToken s.userTokens u token USER_TTL_SECONDS })
    else validateAuthGrace s u token allowExpired now
  | none => validateAuthGrace s u token allowExpired now

/-- Path (b) of `validateAuth`: the reverse `chat:token:{token}` → username
record; on a hit its TTL is refreshed and the token migrated forward. -/
def validateAuthReverse (s : AuthState) (u token : String) (allowExpired : Bool)
    (now : Nat) : AuthResult × AuthState :=
  match s.tokenUser token with
  | some p =>
    if (jsToLower p.1) = u then
      ({ valid := true, expired := some false },
       { s with
         tokenUser := fun k => if k = token then some (p.1, USER_TTL_SECONDS) else s.tokenUser k,
         userTokens := setUserToken s.userTokens u token USER_TTL_SECONDS })
    else validateAuthLegacy s u token allowExpired now
  | none => validateAuthLegacy s u token allowExpired now

/-- `validateAuth`: the four ordered paths — (a) user-scoped record with a
TTL refresh on both formats, (b) reverse record with migration, (c) legacy
record, (d) grace window when `allowExpired`. -/
def validateAuth (s : AuthState) (username token : Option String) (allowExpired : Bool)
    (now : Nat) : AuthResult × AuthState :=
  match username, token with
  | some username, some token =>
    if username.isEmpty || token.isEmpty then ({ valid := false, expired := none }, s)
    else
      let u := (jsToLower username)
      if (lookupUserToken s.userTokens u token).isSome then
        ({ valid := true, expired := some false },
         { s with
           userTokens := expireUserToken s.userTokens u token USER_TTL_SECONDS,
           tokenUser := fun k =>
             if k = token then (s.tokenUser k).map (fun p => (p.1, USER_TTL_SECONDS))
             else s.tokenUser k })
      else validateAuthReverse s u token allowExpired now
  | _, _ => ({ valid := false, expired := none }, s)

/-- `storeLastValidToken`: record the presented token for grace-period
refreshes, keyed by the lowercased username. -/
def storeLastValidToken (s : AuthState) (username token : String)
    (expiredAtMs ttlSeconds : Nat) : AuthState :=
  { s with last := fun k =>
      if k = (jsToLower username) then some ({ token := token, expiredAt := expiredAtMs }, ttlSeconds)
      else s.last k }

/-- `deleteToken`: delete the reverse record, and the user-scoped record of
the owner when the reverse record named one; otherwise the scan fallback
deletes every user-scoped key holding this token. -/
def deleteToken (s : AuthState) (token : String) : AuthState :=
  if token.isEmpty then s
  else
    match s.tokenUser token with
    | some p =>
      { s with
        tokenUser := fun k => if k = token then none else s.tokenUser k,
        userTokens := s.userTokens.filter (fun e => ¬(e.1.1 = (jsToLower p.1) ∧ e.1.2 = token)) }
    | none =>
      { s with
        tokenUser := fun k => if k = token then none else s.tokenUser k,
        userTokens := s.userTokens.filter (fun e => e.1.2 ≠ token) }

/-- `storeToken`: persist a fresh token in both formats. -/
def storeToken (s : AuthState) (username token : String) : AuthState :=
  if token.isEmpty then s
  else
    let u := (jsToLower username)
    { s with
      userTokens := setUserToken s.userTokens u token USER_EXPIRATION_TIME,
      tokenUser := fun k => if k = token then some (u, USER_EXPIRATION_TIME) else s.tokenUser k }

/-- `handleRefreshToken`: require the user record, validate the old token
with `allowExpired`, record it as the grace-window "last known" token,
delete it, then write the new token into the legacy slot and both
multi-token formats, answering 201. -/
def handleRefreshToken (s : AuthState) (usernameRaw oldToken : String) (now : Nat)
    (newToken : String) : HttpResponse × AuthState :=
  if usernameRaw.isEmpty || oldToken.isEmpty then
    (createErrorResponse "Username and oldToken are required" 400, s)
  else
    let username := (jsToLower usernameRaw)
    match s.users username with
    | none => (createErrorResponse "User not found" 404, s)
    | some _ =>
      let vr := validateAuth s (some username) (some oldToken) true now
      if ¬ vr.1.valid then (createErrorResponse "Invalid authentication token" 401, vr.2)
      else
        let s2 := storeLastValidToken vr.2 username oldToken now TOKEN_GRACE_PERIOD
        let s3 := deleteToken s2 oldToken
        let s4 := { s3 with legacy := fun k =>
          if k = username then some (newToken, USER_EXPIRATION_TIME) else s3.legacy k }
        let s5 := storeToken s4 username newToken
        (okResponse 201, s5)

/-! ### Sensitive-action rate limiter -/

/-- Fault injection for the store operations `checkRateLimit` performs on
its single counter key: each flag makes the corresponding operation throw. -/
structure RateLimitFaults where
  getFails : Bool
  setFails : Bool
  incrFails : Bool
  deriving Repr, DecidableEq

/-- `checkRateLimit` acting on its `rl:{action}:{identifier}` counter:
returns whether the request is allowed together with the new counter
value.  A missing counter starts the window at 1; a counter at or above
`RATE_LIMIT_ATTEMPTS` refuses without touching the store; any thrown
store operation is caught and the request allowed (fail open). -/
def checkRateLimit (f : RateLimitFaults) (counter : Option Nat) : Bool × Option Nat :=
  if f.getFails then (true, counter)
  else
    match counter with
    | none => if f.setFails then (true, none) else (true, some 1)
    | some count =>
      if count ≥ RATE_LIMIT_ATTEMPTS then (false, some count)
      else if f.incrFails then (true, counter) else (true, some (count + 1))

/-! ### POST dispatcher authentication gate -/

/-- `extractAuth` result. -/
structure AuthInfo where
  username : Option String
  token : Option String
  deriving Repr, DecidableEq

/-- `extractAuth`: the bearer token from the `Authorization` header plus
the `X-Username` header; both `none` unless the header exists and starts
with `Bearer `. -/
def extractAuth (authHeader xUsername : Option String) : AuthInfo :=
  match authHeader with
  | some h =>
    if h.startsWith "Bearer " then { username := xUsername, token := some (h.drop 7) }
    else { username := none, token := none }
  | none => { username := none, token := none }

/-- The POST actions that require authentication. -/
def protectedActions : List String :=
  ["createRoom", "sendMessage", "clearAllMessages", "resetUserCounts", "setPassword",
   "generateToken", "listTokens", "logoutAllDevices", "logoutCurrent", "generateRyoReply"]

/-- JavaScript `a || b` on optional strings (empty string is falsy). -/
def jsOrStr : Option String → Option String → Option String
  | some s, b => if s.isEmpty then b else some s
  | none, b => b

/-- Outcome of the dispatcher's authentication gate: an early error
response, or dispatch into the action handler with the extracted
identity. -/
inductive PostOutcome where
  | earlyResponse (r : HttpResponse)
  | dispatch (username token : Option String)
  deriving Repr, DecidableEq

/-- The authentication gate of the POST dispatcher (lines 2228-2254): for
protected actions, first the body-vs-header username mismatch check
(401 before anything else), then `validateAuth`; merely public actions
dispatch directly. -/
def postAuthGate (s : AuthState) (action : String)
    (authHeader xUsername bodyUsername : Option String) (now : Nat) :
    PostOutcome × AuthState :=
  if protectedActions.contains action then
    let a := extractAuth authHeader xUsername
    let mismatch : Bool :=
      match bodyUsername with
      | none => false
      | some b =>
        if b.isEmpty then false
        else (a.username.map jsToLower) != some (jsToLower b)
    if mismatch then (.earlyResponse (createErrorResponse "Username mismatch" 401), s)
    else
      let vr := validateAuth s (jsOrStr a.username bodyUsername) a.token false now
      if ¬ vr.1.valid then (.earlyResponse (createErrorResponse "Unauthorized" 401), vr.2)
      else (.dispatch a.username a.token, vr.2)
  else (.dispatch none none, s)

/-! ### Path predicates and lemmas for `validateAuth` -/

/-- Path (a) hits: the user-scoped `(user, token)` record exists. -/
def hitDirect (s : AuthState) (u t : String) : Prop :=
  (lookupUserToken s.userTokens u t).isSome = true

/-- Path (b) hits: the reverse record maps the token to this username. -/
def hitReverse (s : AuthState) (u t : String) : Prop :=
  ∃ p, s.tokenUser t = some p ∧ (jsToLower p.1) = u

/-- Path (c) hits: the legacy per-user record stores exactly this token. -/
def hitLegacy (s : AuthState) (u t : String) : Prop :=
  ∃ p, s.legacy u = some p ∧ ¬p.1.isEmpty = true ∧ p.1 = t

/-- Path (d) hits: the grace-window record matches and the grace period
has not elapsed. -/
def hitGrace (s : AuthState) (u t : String) (now : Nat) : Prop :=
  ∃ p, s.last u = some p ∧ p.1.token = t ∧ now < p.1.expiredAt + TOKEN_GRACE_PERIOD * 1000

theorem lookupUserToken_set_self (l : List ((String × String) × Nat)) (u t : String)
    (ttl : Nat) : lookupUserToken (setUserToken l u t ttl) u t = some ttl := by
  simp [lookupUserToken, setUserToken, List.find?]

theorem find?_expire (l : List ((String × String) × Nat)) (u t : String) (ttl : Nat) :
    List.find? (fun e => decide (e.1.1 = u ∧ e.1.2 = t)) (expireUserToken l u t ttl) =
      (List.find? (fun e => decide (e.1.1 = u ∧ e.1.2 = t)) l).map (fun e => (e.1, ttl)) := by
  induction l with
  | nil => rfl
  | cons e rest ih =>
    by_cases h : e.1.1 = u ∧ e.1.2 = t
    · have hb : (fun e => decide (e.1.1 = u ∧ e.1.2 = t)) e = true := by simpa using h
      have hb2 : (fun e => decide (e.1.1 = u ∧ e.1.2 = t)) (e.1, ttl) = true := by
        simpa using h
      simp only [expireUserToken, List.map_cons, if_pos h]
      rw [List.find?_cons_of_pos (p := fun (e : (String × String) × Nat) => decide (e.1.1 = u ∧ e.1.2 = t)) _ hb2,
        List.find?_cons_of_pos (p := fun (e : (String × String) × Nat) => decide (e.1.1 = u ∧ e.1.2 = t)) _ hb]
      rfl
    · have hb : ¬((fun (e : (String × String) × Nat) => decide (e.1.1 = u ∧ e.1.2 = t)) e = true) := by simpa using h
      simp only [expireUserToken, List.map_cons, if_neg h]
      rw [List.find?_cons_of_neg (p := fun (e : (String × String) × Nat) => decide (e.1.1 = u ∧ e.1.2 = t)) _ hb,
        List.find?_cons_of_neg (p := fun (e : (String × String) × Nat) => decide (e.1.1 = u ∧ e.1.2 = t)) _ hb]
      simpa [expireUserToken] using ih

theorem lookupUserToken_expire_self (l : List ((String × String) × Nat)) (u t : String)
    (ttl : Nat) :
    lookupUserToken (expireUserToken l u t ttl) u t =
      (lookupUserToken l u t).map (fun _ => ttl) := by
  unfold lookupUserToken
  rw [find?_expire]
  cases List.find? (fun e => decide (e.1.1 = u ∧ e.1.2 = t)) l with
  | none => rfl
  | some e => rfl

theorem lookupUserToken_eq_none (l : List ((String × String) × Nat)) (u t : String)
    (h : ∀ e ∈ l, ¬(e.1.1 = u ∧ e.1.2 = t)) : lookupUserToken l u t = none := by
  induction l with
  | nil => rfl
  | cons e rest ih =>
    have hb : ¬((fun (e : (String × String) × Nat) => decide (e.1.1 = u ∧ e.1.2 = t)) e = true) := by
      simp only [decide_eq_true_eq]
      exact h e (by simp)
    unfold lookupUserToken
    rw [List.find?_cons_of_neg (p := fun (e : (String × String) × Nat) => decide (e.1.1 = u ∧ e.1.2 = t)) _ hb]
    exact ih (fun x hx => h x (by simp [hx]))

theorem validateAuthGrace_pos {s : AuthState} {u t : String} {now : Nat}
    (h : hitGrace s u t now) :
    validateAuthGrace s u t true now = ({ valid := true, expired := some true }, s) := by
  obtain ⟨p, hp, ht, hnow⟩ := h
  simp [validateAuthGrace, hp, ht, hnow]

theorem validateAuthGrace_neg {s : AuthState} {u t : String} {ae : Bool} {now : Nat}
    (h : ¬(ae = true ∧ hitGrace s u t now)) :
    validateAuthGrace s u t ae now = ({ valid := false, expired := none }, s) := by
  cases ae with
  | false => simp [validateAuthGrace]
  | true =>
    have hg : ¬ hitGrace s u t now := fun hx => h ⟨rfl, hx⟩
    unfold validateAuthGrace
    cases hp : s.last u with
    | none => simp
    | some p =>
      have : ¬(p.1.token = t ∧ now < p.1.expiredAt + TOKEN_GRACE_PERIOD * 1000) :=
        fun hx => hg ⟨p, hp, hx.1, hx.2⟩
      simp [this]

theorem validateAuthLegacy_pos {s : AuthState} {u t : String} {ae : Bool} {now : Nat}
    (h : hitLegacy s u t) :
    (validateAuthLegacy s u t ae now).1 = { valid := true, expired := some false } ∧
      lookupUserToken (validateAuthLegacy s u t ae now).2.userTokens u t =
        some USER_TTL_SECONDS := by
  obtain ⟨⟨pt, pttl⟩, hp, hne, heq⟩ := h
  simp only at heq
  subst heq
  have hne2 : pt.isEmpty = false := by simpa using hne
  simp [validateAuthLegacy, hp, hne2, lookupUserToken_set_self]

theorem validateAuthLegacy_neg {s : AuthState} {u t : String} {ae : Bool} {now : Nat}
    (h : ¬ hitLegacy s u t) :
    validateAuthLegacy s u t ae now = validateAuthGrace s u t ae now := by
  unfold validateAuthLegacy
  cases hp : s.legacy u with
  | none => rfl
  | some p =>
    have hcond : ¬(¬p.1.isEmpty = true ∧ p.1 = t) := fun hx => h ⟨p, hp, hx.1, hx.2⟩
    dsimp only
    rw [if_neg hcond]

theorem validateAuthReverse_pos {s : AuthState} {u t : String} {ae : Bool} {now : Nat}
    (h : hitReverse s u t) :
    (validateAuthReverse s u t ae now).1 = { valid := true, expired := some false } ∧
      lookupUserToken (validateAuthReverse s u t ae now).2.userTokens u t =
        some USER_TTL_SECONDS := by
  obtain ⟨p, hp, heq⟩ := h
  simp [validateAuthReverse, hp, heq, lookupUserToken_set_self]

theorem validateAuthReverse_neg {s : AuthState} {u t : String} {ae : Bool} {now : Nat}
    (h : ¬ hitReverse s u t) :
    validateAuthReverse s u t ae now = validateAuthLegacy s u t ae now := by
  unfold validateAuthReverse
  cases hp : s.tokenUser t with
  | none => rfl
  | some p =>
    have : ¬(jsToLower p.1 = u) := fun hx => h ⟨p, hp, hx⟩
    simp [this]

theorem validateAuth_direct_pos {s : AuthState} {username token : String} {ae : Bool}
    {now : Nat} (hu : ¬username.isEmpty = true) (ht : ¬token.isEmpty = true)
    (h : hitDirect s (jsToLower username) token) :
    (validateAuth s (some username) (some token) ae now).1 =
        { valid := true, expired := some false } ∧
      lookupUserToken (validateAuth s (some username) (some token) ae now).2.userTokens
        (jsToLower username) token = some USER_TTL_SECONDS := by
  unfold hitDirect at h
  unfold validateAuth
  simp only [Bool.not_eq_true] at hu ht
  simp [hu, ht, h, lookupUserToken_expire_self]
  rw [Option.isSome_iff_exists] at h
  obtain ⟨ttl, httl⟩ := h
  simp [httl]

theorem validateAuth_direct_neg {s : AuthState} {username token : String} {ae : Bool}
    {now : Nat} (hu : ¬username.isEmpty = true) (ht : ¬token.isEmpty = true)
    (h : ¬ hitDirect s (jsToLower username) token) :
    validateAuth s (some username) (some token) ae now =
      validateAuthReverse s (jsToLower username) token ae now := by
  unfold hitDirect at h
  unfold validateAuth
  simp only [Bool.not_eq_true] at hu ht
  simp only [Option.isSome_iff_exists, not_exists] at h
  have hnone : lookupUserToken s.userTokens (jsToLower username) token = none := by
    cases hx : lookupUserToken s.userTokens (jsToLower username) token with
    | none => rfl
    | some v => exact absurd hx (h v)
  simp [hu, ht, hnone]

/-- C5: `validateAuth` checks exactly the four paths in order: (a) the
user-scoped record, refreshing its TTL on a hit; (b) the reverse
token-to-username record, migrated to the user-scoped format when found;
(c) the legacy single-token record; (d) only under `allowExpired`, the
grace-window record, answering `valid` and `expired=true`; it returns
`valid=false` (with no `expired` flag) exactly when all applicable paths
fail. -/
theorem validateAuth_four_paths (s : AuthState) (username token : String)
    (allowExpired : Bool) (now : Nat)
    (hu : ¬username.isEmpty = true) (ht : ¬token.isEmpty = true) :
    ((validateAuth s (some username) (some token) allowExpired now).1.valid = true ↔
      (hitDirect s (jsToLower username) token ∨ hitReverse s (jsToLower username) token ∨
       hitLegacy s (jsToLower username) token ∨
       (allowExpired = true ∧ hitGrace s (jsToLower username) token now))) ∧
    ((validateAuth s (some username) (some token) allowExpired now).1 =
        { valid := true, expired := some true } ↔
      (¬hitDirect s (jsToLower username) token ∧ ¬hitReverse s (jsToLower username) token ∧
       ¬hitLegacy s (jsToLower username) token ∧ allowExpired = true ∧
       hitGrace s (jsToLower username) token now)) ∧
    (hitDirect s (jsToLower username) token →
      lookupUserToken
        (validateAuth s (some username) (some token) allowExpired now).2.userTokens
        (jsToLower username) token = some USER_TTL_SECONDS) ∧
    (¬hitDirect s (jsToLower username) token → hitReverse s (jsToLower username) token →
      lookupUserToken
        (validateAuth s (some username) (some token) allowExpired now).2.userTokens
        (jsToLower username) token = some USER_TTL_SECONDS) ∧
    ((validateAuth s (some username) (some token) allowExpired now).1.valid = false →
      (validateAuth s (some username) (some token) allowExpired now).1.expired = none) := by
  by_cases hd : hitDirect s (jsToLower username) token
  · obtain ⟨hres, hlook⟩ := @validateAuth_direct_pos s username token allowExpired now hu ht hd
    refine ⟨?_, ?_, fun _ => hlook, fun hnd _ => absurd hd hnd, ?_⟩
    · simp [hres, hd]
    · simp [hres, hd]
    · simp [hres]
  · rw [validateAuth_direct_neg hu ht hd]
    by_cases hr : hitReverse s (jsToLower username) token
    · obtain ⟨hres, hlook⟩ := @validateAuthReverse_pos s (jsToLower username) token allowExpired now hr
      refine ⟨?_, ?_, fun hx => absurd hx hd, fun _ _ => hlook, ?_⟩
      · simp [hres, hr]
      · simp only [hres]
        constructor
        · intro hx
          simp at hx
        · intro hx
          exact absurd hr hx.2.1
      · simp [hres]
    · rw [validateAuthReverse_neg hr]
      by_cases hl : hitLegacy s (jsToLower username) token
      · obtain ⟨hres, hlook⟩ := @validateAuthLegacy_pos s (jsToLower username) token allowExpired now hl
        refine ⟨?_, ?_, fun hx => absurd hx hd, fun _ hx => absurd hx hr, ?_⟩
        · simp [hres, hl]
        · simp only [hres]
          constructor
          · intro hx
            simp at hx
          · intro hx
            exact absurd hl hx.2.2.1
        · simp [hres]
      · rw [validateAuthLegacy_neg hl]
        by_cases hg : allowExpired = true ∧ hitGrace s (jsToLower username) token now
        · obtain ⟨hae, hgr⟩ := hg
          subst hae
          rw [validateAuthGrace_pos hgr]
          refine ⟨?_, ?_, fun hx => absurd hx hd, fun _ hx => absurd hx hr, ?_⟩
          · simp [hgr]
          · simp [hd, hr, hl, hgr]
          · simp
        · rw [validateAuthGrace_neg hg]
          refine ⟨?_, ?_, fun hx => absurd hx hd, fun _ hx => absurd hx hr, ?_⟩
          · simp only [Bool.false_eq_true, false_iff]
            push_neg
            exact ⟨hd, hr, hl, fun hae hx => hg ⟨hae, hx⟩⟩
          · simp only []
            constructor
            · intro hx
              simp at hx
            · intro hx
              exact absurd hx.2.2.2.2 (fun h2 => hg ⟨hx.2.2.2.1, h2⟩)
          · simp

/-- Concrete token store used by the auth witnesses: user `alice` with a
live user-scoped token `tok1`. -/
def witnessAuthState : AuthState :=
  { userTokens := [(("alice", "tok1"), 100)],
    tokenUser := fun k => if k = "tok1" then some ("alice", 100) else none,
    legacy := fun _ => none,
    last := fun _ => none,
    users := fun k => if k = "alice" then some { username := "alice", lastActive := 0 } else none }

/-- Witness for C5 at the concrete store. -/
theorem validateAuth_four_paths_witness :
    ¬("Alice" : String).isEmpty = true ∧ ¬("tok1" : String).isEmpty = true ∧
    (((validateAuth witnessAuthState (some "Alice") (some "tok1") false 5).1.valid = true ↔
      (hitDirect witnessAuthState (jsToLower "Alice") "tok1" ∨
       hitReverse witnessAuthState (jsToLower "Alice") "tok1" ∨
       hitLegacy witnessAuthState (jsToLower "Alice") "tok1" ∨
       (false = true ∧ hitGrace witnessAuthState (jsToLower "Alice") "tok1" 5))) ∧
    ((validateAuth witnessAuthState (some "Alice") (some "tok1") false 5).1 =
        { valid := true, expired := some true } ↔
      (¬hitDirect witnessAuthState (jsToLower "Alice") "tok1" ∧
       ¬hitReverse witnessAuthState (jsToLower "Alice") "tok1" ∧
       ¬hitLegacy witnessAuthState (jsToLower "Alice") "tok1" ∧ false = true ∧
       hitGrace witnessAuthState (jsToLower "Alice") "tok1" 5)) ∧
    (hitDirect witnessAuthState (jsToLower "Alice") "tok1" →
      lookupUserToken
        (validateAuth witnessAuthState (some "Alice") (some "tok1") false 5).2.userTokens
        (jsToLower "Alice") "tok1" = some USER_TTL_SECONDS) ∧
    (¬hitDirect witnessAuthState (jsToLower "Alice") "tok1" →
      hitReverse witnessAuthState (jsToLower "Alice") "tok1" →
      lookupUserToken
        (validateAuth witnessAuthState (some "Alice") (some "tok1") false 5).2.userTokens
        (jsToLower "Alice") "tok1" = some USER_TTL_SECONDS) ∧
    ((validateAuth witnessAuthState (some "Alice") (some "tok1") false 5).1.valid = false →
      (validateAuth witnessAuthState (some "Alice") (some "tok1") false 5).1.expired = none)) :=
  ⟨by decide, by decide,
   validateAuth_four_paths witnessAuthState "Alice" "tok1" false 5 (by decide) (by decide)⟩

/-! ### Frame lemmas for the refresh pipeline -/

theorem storeToken_last (s : AuthState) (u t : String) : (storeToken s u t).last = s.last := by
  unfold storeToken
  split <;> rfl

theorem storeToken_legacy (s : AuthState) (u t : String) :
    (storeToken s u t).legacy = s.legacy := by
  unfold storeToken
  split <;> rfl

theorem storeToken_tokenUser_other (s : AuthState) (u t k : String) (hk : k ≠ t) :
    (storeToken s u t).tokenUser k = s.tokenUser k := by
  unfold storeToken
  split
  · rfl
  · simp [hk]

theorem storeToken_userTokens (s : AuthState) (u t : String) (h : ¬t.isEmpty = true) :
    (storeToken s u t).userTokens = setUserToken s.userTokens (jsToLower u) t USER_EXPIRATION_TIME := by
  unfold storeToken
  rw [if_neg (by simpa using h)]

theorem deleteToken_last (s : AuthState) (t : String) : (deleteToken s t).last = s.last := by
  unfold deleteToken
  split
  · rfl
  · split <;> rfl

theorem deleteToken_legacy (s : AuthState) (t : String) :
    (deleteToken s t).legacy = s.legacy := by
  unfold deleteToken
  split
  · rfl
  · split <;> rfl

theorem deleteToken_tokenUser_self (s : AuthState) (t : String) (h : ¬t.isEmpty = true) :
    (deleteToken s t).tokenUser t = none := by
  unfold deleteToken
  rw [if_neg (by simpa using h)]
  split <;> simp

theorem deleteToken_no_old (s : AuthState) (t u : String) (hne : ¬t.isEmpty = true)
    (hcons : ∀ p, s.tokenUser t = some p → (jsToLower p.1) = u) :
    ∀ e ∈ (deleteToken s t).userTokens, ¬(e.1.1 = u ∧ e.1.2 = t) := by
  unfold deleteToken
  rw [if_neg (by simpa using hne)]
  cases hp : s.tokenUser t with
  | some p =>
    dsimp only
    intro e he
    rw [List.mem_filter] at he
    have hu := hcons p hp
    rintro ⟨h1, h2⟩
    have := he.2
    simp only [decide_eq_true_eq] at this
    exact this ⟨by rw [h1, hu], h2⟩
  | none =>
    dsimp only
    intro e he
    rw [List.mem_filter] at he
    rintro ⟨h1, h2⟩
    have := he.2
    simp only [decide_eq_true_eq] at this
    exact this h2

theorem lookup_after_set_none (l : List ((String × String) × Nat)) (u t t' : String)
    (ttl : Nat) (hne : t' ≠ t) (h : ∀ e ∈ l, ¬(e.1.1 = u ∧ e.1.2 = t)) :
    lookupUserToken (setUserToken l u t' ttl) u t = none := by
  apply lookupUserToken_eq_none
  intro e he
  unfold setUserToken at he
  rcases List.mem_cons.mp he with he | he
  · subst he
    rintro ⟨-, h2⟩
    exact hne h2
  · exact h e (List.mem_filter.mp he).1

theorem storeLastValidToken_userTokens (s : AuthState) (u t : String) (e ttl : Nat) :
    (storeLastValidToken s u t e ttl).userTokens = s.userTokens := rfl

theorem storeLastValidToken_tokenUser (s : AuthState) (u t : String) (e ttl : Nat) :
    (storeLastValidToken s u t e ttl).tokenUser = s.tokenUser := rfl

theorem validateAuthGrace_tokenUser (s : AuthState) (u t : String) (ae : Bool) (now : Nat) :
    (validateAuthGrace s u t ae now).2.tokenUser = s.tokenUser := by
  unfold validateAuthGrace
  split
  · split
    · split <;> rfl
    · rfl
  · rfl

theorem validateAuthLegacy_tokenUser (s : AuthState) (u t : String) (ae : Bool) (now : Nat) :
    (validateAuthLegacy s u t ae now).2.tokenUser = s.tokenUser := by
  unfold validateAuthLegacy
  split
  · split
    · rfl
    · rw [validateAuthGrace_tokenUser]
  · rw [validateAuthGrace_tokenUser]

theorem validateAuthReverse_tokenUser_fst (s : AuthState) (u t : String) (ae : Bool)
    (now : Nat) (k : String) :
    ((validateAuthReverse s u t ae now).2.tokenUser k).map (·.1) =
      (s.tokenUser k).map (·.1) := by
  unfold validateAuthReverse
  cases hp : s.tokenUser t with
  | none => rw [validateAuthLegacy_tokenUser]
  | some p =>
    dsimp only
    split
    · dsimp only
      by_cases hk : k = t
      · subst hk
        simp [hp]
      · simp [hk]
    · rw [validateAuthLegacy_tokenUser]

theorem validateAuth_tokenUser_fst (s : AuthState) (username token : String) (ae : Bool)
    (now : Nat) (k : String) :
    ((validateAuth s (some username) (some token) ae now).2.tokenUser k).map (·.1) =
      (s.tokenUser k).map (·.1) := by
  unfold validateAuth
  dsimp only
  split
  · rfl
  · split
    · dsimp only
      by_cases hk : k = token
      · subst hk
        simp only [if_pos rfl, Option.map_map]
        cases s.tokenUser k <;> rfl
      · simp [hk]
    · exact validateAuthReverse_tokenUser_fst s (jsToLower username) token ae now k

/-- The intermediate state of `handleRefreshToken` that writes the fresh
token into the legacy `chat:token:{username}` slot. -/
def setLegacySlot (s : AuthState) (username newToken : String) : AuthState :=
  { s with legacy := fun k =>
      if k = username then some (newToken, USER_EXPIRATION_TIME) else s.legacy k }

theorem setLegacySlot_userTokens (s : AuthState) (u nt : String) :
    (setLegacySlot s u nt).userTokens = s.userTokens := rfl

theorem setLegacySlot_tokenUser (s : AuthState) (u nt : String) :
    (setLegacySlot s u nt).tokenUser = s.tokenUser := rfl

theorem setLegacySlot_last (s : AuthState) (u nt : String) :
    (setLegacySlot s u nt).last = s.last := rfl

/-- C4: after a successful `handleRefreshToken`, the old token is recorded
as the grace-window "last known" token and removed from every live-token
store, so `validateAuth` without `allowExpired` rejects it, while with
`allowExpired` it is accepted with `expired=true` as long as the grace
window has not elapsed. -/
theorem handleRefreshToken_invalidates_old_token
    (s : AuthState) (username oldToken newToken : String) (now now2 : Nat)
    (hlow : (jsToLower username) = username)
    (hu : ¬username.isEmpty = true) (ho : ¬oldToken.isEmpty = true)
    (hnew : ¬newToken.isEmpty = true) (hne : newToken ≠ oldToken)
    (hcons : ∀ p, s.tokenUser oldToken = some p → (jsToLower p.1) = username)
    (huser : (s.users username).isSome = true)
    (hvalid : (validateAuth s (some username) (some oldToken) true now).1.valid = true) :
    (handleRefreshToken s username oldToken now newToken).1 = okResponse 201 ∧
    (handleRefreshToken s username oldToken now newToken).2.last username =
      some ({ token := oldToken, expiredAt := now }, TOKEN_GRACE_PERIOD) ∧
    (validateAuth (handleRefreshToken s username oldToken now newToken).2
        (some username) (some oldToken) false now2).1 =
      { valid := false, expired := none } ∧
    (now2 < now + TOKEN_GRACE_PERIOD * 1000 →
      (validateAuth (handleRefreshToken s username oldToken now newToken).2
          (some username) (some oldToken) true now2).1 =
        { valid := true, expired := some true }) := by
  obtain ⟨uu, huu⟩ := Option.isSome_iff_exists.mp huser
  have hor : (username.isEmpty || oldToken.isEmpty) = false := by
    rw [Bool.or_eq_false_iff]
    exact ⟨by simpa using hu, by simpa using ho⟩
  have hexp : handleRefreshToken s username oldToken now newToken =
      (okResponse 201,
        storeToken
          (setLegacySlot
            (deleteToken
              (storeLastValidToken
                (validateAuth s (some username) (some oldToken) true now).2
                username oldToken now TOKEN_GRACE_PERIOD) oldToken)
            username newToken)
          username newToken) := by
    unfold handleRefreshToken setLegacySlot
    rw [hlow, hor]
    simp only [Bool.false_eq_true, if_false, huu, hvalid, not_true, ite_false]
  rw [hexp]
  set s1 := (validateAuth s (some username) (some oldToken) true now).2 with hs1def
  set s2 := storeLastValidToken s1 username oldToken now TOKEN_GRACE_PERIOD with hs2def
  set s3 := deleteToken s2 oldToken with hs3def
  set s4 := setLegacySlot s3 username newToken with hs4def
  set s5 := storeToken s4 username newToken with hs5def
  -- state facts
  have hlast : s5.last username = some ({ token := oldToken, expiredAt := now }, TOKEN_GRACE_PERIOD) := by
    rw [hs5def, storeToken_last, hs4def, setLegacySlot_last]
    rw [hs3def, deleteToken_last, hs2def]
    show (storeLastValidToken s1 username oldToken now TOKEN_GRACE_PERIOD).last username = _
    unfold storeLastValidToken
    simp [hlow]
  have hcons1 : ∀ p, s2.tokenUser oldToken = some p → (jsToLower p.1) = username := by
    intro p hp
    rw [hs2def, storeLastValidToken_tokenUser] at hp
    have hmap := validateAuth_tokenUser_fst s username oldToken true now oldToken
    rw [hs1def] at hp
    rw [hp] at hmap
    cases hq : s.tokenUser oldToken with
    | none => rw [hq] at hmap; simp at hmap
    | some q =>
      rw [hq] at hmap
      simp at hmap
      rw [hmap]
      exact hcons q hq
  have hnoOld : ∀ e ∈ s3.userTokens, ¬(e.1.1 = username ∧ e.1.2 = oldToken) := by
    rw [hs3def]
    exact deleteToken_no_old s2 oldToken username ho hcons1
  have hlookup : lookupUserToken s5.userTokens username oldToken = none := by
    rw [hs5def, storeToken_userTokens _ _ _ hnew, hlow, hs4def, setLegacySlot_userTokens]
    exact lookup_after_set_none _ _ _ _ _ hne (by
      intro e he
      exact hnoOld e he)
  have htu : s5.tokenUser oldToken = none := by
    rw [hs5def, storeToken_tokenUser_other _ _ _ _ (fun hx => hne hx.symm), hs4def,
      setLegacySlot_tokenUser, hs3def]
    exact deleteToken_tokenUser_self s2 oldToken ho
  have hleg : s5.legacy username = some (newToken, USER_EXPIRATION_TIME) := by
    rw [hs5def, storeToken_legacy, hs4def]
    unfold setLegacySlot
    simp
  have hnd : ¬ hitDirect s5 (jsToLower username) oldToken := by
    rw [hlow]
    unfold hitDirect
    rw [hlookup]
    simp
  have hnr : ¬ hitReverse s5 (jsToLower username) oldToken := by
    rintro ⟨p, hp, -⟩
    rw [htu] at hp
    exact Option.noConfusion hp
  have hnl : ¬ hitLegacy s5 (jsToLower username) oldToken := by
    rw [hlow]
    rintro ⟨p, hp, -, hpt⟩
    rw [hleg] at hp
    injection hp with hp
    rw [← hp] at hpt
    exact hne hpt
  refine ⟨rfl, hlast, ?_, ?_⟩
  · rw [validateAuth_direct_neg hu ho hnd, validateAuthReverse_neg hnr,
      validateAuthLegacy_neg hnl, validateAuthGrace_neg (by simp)]
  · intro hwin
    have hgr : hitGrace s5 (jsToLower username) oldToken now2 := by
      rw [hlow]
      exact ⟨_, hlast, rfl, by simpa using hwin⟩
    rw [validateAuth_direct_neg hu ho hnd, validateAuthReverse_neg hnr,
      validateAuthLegacy_neg hnl, validateAuthGrace_pos hgr]

/-- Concrete store for the C4 witness: `alice` holds live token `oldtok`
in both multi-token formats. -/
def refreshWitnessState : AuthState :=
  { userTokens := [(("alice", "oldtok"), 77)],
    tokenUser := fun k => if k = "oldtok" then some ("alice", 77) else none,
    legacy := fun _ => none,
    last := fun _ => none,
    users := fun k => if k = "alice" then some { username := "alice", lastActive := 0 } else none }

/-- Witness for C4 at the concrete store. -/
theorem handleRefreshToken_invalidates_old_token_witness :
    (handleRefreshToken refreshWitnessState "alice" "oldtok" 1000 "newtok").1 = okResponse 201 ∧
    (handleRefreshToken refreshWitnessState "alice" "oldtok" 1000 "newtok").2.last "alice" =
      some ({ token := "oldtok", expiredAt := 1000 }, TOKEN_GRACE_PERIOD) ∧
    (validateAuth (handleRefreshToken refreshWitnessState "alice" "oldtok" 1000 "newtok").2
        (some "alice") (some "oldtok") false 2000).1 =
      { valid := false, expired := none } ∧
    (2000 < 1000 + TOKEN_GRACE_PERIOD * 1000 →
      (validateAuth (handleRefreshToken refreshWitnessState "alice" "oldtok" 1000 "newtok").2
          (some "alice") (some "oldtok") true 2000).1 =
        { valid := true, expired := some true }) :=
  handleRefreshToken_invalidates_old_token refreshWitnessState "alice" "oldtok" "newtok"
    1000 2000 (by decide) (by decide) (by decide) (by decide) (by decide)
    (by
      intro p hp
      simp only [refreshWitnessState] at hp
      simp at hp
      subst hp
      rfl)
    (by decide) (by decide)

/-! ### Sensitive-action rate limiter: C8 -/

/-- C8: any store operation failing inside `checkRateLimit` makes it allow
the request (fail open) and leaves the counter untouched; a counter at the
limit refuses the request without incrementing it or mutating anything. -/
theorem checkRateLimit_fail_open_and_limit (f : RateLimitFaults) (counter : Option Nat) :
    ((f.getFails = true ∨ (counter = none ∧ f.setFails = true) ∨
      (∃ c, counter = some c ∧ c < RATE_LIMIT_ATTEMPTS ∧ f.incrFails = true)) →
      (checkRateLimit f counter).1 = true ∧ (checkRateLimit f counter).2 = counter) ∧
    (∀ c, counter = some c → RATE_LIMIT_ATTEMPTS ≤ c → f.getFails = false →
      checkRateLimit f counter = (false, counter)) := by
  constructor
  · rintro (hg | ⟨hc, hs⟩ | ⟨c, hc, hlt, hi⟩)
    · simp [checkRateLimit, hg]
    · subst hc
      cases hgf : f.getFails <;> simp [checkRateLimit, hgf, hs]
    · subst hc
      cases hgf : f.getFails <;>
        simp [checkRateLimit, hgf, hi, Nat.not_le.mpr hlt]
  · intro c hc hge hgf
    subst hc
    simp [checkRateLimit, hgf, hge]

/-- Witness for C8: a failing `get` allows and preserves the counter; a
full window refuses without mutation. -/
theorem checkRateLimit_fail_open_and_limit_witness :
    (checkRateLimit ⟨true, false, false⟩ (some 5)).1 = true ∧
      (checkRateLimit ⟨true, false, false⟩ (some 5)).2 = some 5 ∧
      checkRateLimit ⟨false, false, false⟩ (some 10) = (false, some 10) :=
  ⟨((checkRateLimit_fail_open_and_limit ⟨true, false, false⟩ (some 5)).1 (Or.inl rfl)).1,
   ((checkRateLimit_fail_open_and_limit ⟨true, false, false⟩ (some 5)).1 (Or.inl rfl)).2,
   (checkRateLimit_fail_open_and_limit ⟨false, false, false⟩ (some 10)).2 10 rfl
     (by decide) rfl⟩

/-! ### POST dispatcher gate: C10 -/

/-- C10: for a protected action, a body username that differs (lowercased)
from the authenticated `X-Username` header is rejected with 401 "Username
mismatch" before any token validation, handler, or state change. -/
theorem postAuthGate_username_mismatch (s : AuthState) (action : String)
    (authHeader xUsername : Option String) (b : String) (now : Nat)
    (hact : protectedActions.contains action = true)
    (hb : ¬b.isEmpty = true)
    (hmis : xUsername.map jsToLower ≠ some (jsToLower b)) :
    postAuthGate s action authHeader xUsername (some b) now =
      (.earlyResponse (createErrorResponse "Username mismatch" 401), s) := by
  have ha : (extractAuth authHeader xUsername).username = xUsername ∨
      (extractAuth authHeader xUsername).username = none := by
    unfold extractAuth
    cases authHeader with
    | none => exact Or.inr rfl
    | some h =>
      dsimp only
      split
      · exact Or.inl rfl
      · exact Or.inr rfl
  have hmm : (((extractAuth authHeader xUsername).username.map jsToLower) !=
      some (jsToLower b)) = true := by
    rcases ha with ha | ha <;> rw [ha]
    · exact bne_iff_ne.mpr hmis
    · exact bne_iff_ne.mpr (by simp)
  unfold postAuthGate
  rw [if_pos hact]
  have hbe : b.isEmpty = false := by simpa using hb
  simp only [hbe, Bool.false_eq_true, if_false, hmm, if_true]

/-- Witness for C10 at a concrete mismatching request. -/
theorem postAuthGate_username_mismatch_witness :
    protectedActions.contains "sendMessage" = true ∧
    ¬("bob" : String).isEmpty = true ∧
    (some "alice" : Option String).map jsToLower ≠ some (jsToLower "bob") ∧
    postAuthGate witnessAuthState "sendMessage" (some "Bearer tok1") (some "alice")
        (some "bob") 0 =
      (.earlyResponse (createErrorResponse "Username mismatch" 401), witnessAuthState) :=
  ⟨by decide, by decide, by decide,
   postAuthGate_username_mismatch witnessAuthState "sendMessage" (some "Bearer tok1")
     (some "alice") "bob" 0 (by decide) (by decide) (by decide)⟩

/-! ### Room visibility: C7 -/

/-- C7: the room listing never shows a private room to an anonymous
viewer; a named viewer sees a private room iff their lowercased username
is in its member list; rooms that are public (or untyped) are visible to
every viewer.  Stated both for `handleGetRooms` and for the broadcast-side
`filterRoomsForUser`. -/
theorem room_visibility (s : ChatState) (u : String) (r : RoomWithUsers)
    (hu : ¬(jsToLower u).isEmpty = true) :
    (r ∈ (handleGetRooms s none).1 → ¬r.type = some "private") ∧
    (r.type = some "private" →
      (r ∈ (handleGetRooms s (some u)).1 ↔
        r ∈ (getDetailedRooms s).1 ∧ (jsToLower u) ∈ r.members.getD [])) ∧
    (r ∈ (getDetailedRooms s).1 →
      (jsFalsyStr r.type || r.type == some "public") = true →
      ∀ v, r ∈ (handleGetRooms s v).1) ∧
    (r ∈ filterRoomsForUser (getDetailedRooms s).1 none → ¬r.type = some "private") ∧
    (r.type = some "private" →
      (r ∈ filterRoomsForUser (getDetailedRooms s).1 (some (jsToLower u)) ↔
        r ∈ (getDetailedRooms s).1 ∧
          jsToLower (jsToLower u) ∈ r.members.getD [])) := by
  have hpf : ("private" : String).isEmpty = false := by decide
  refine ⟨?_, ?_, ?_, ?_, ?_⟩
  · intro hmem
    unfold handleGetRooms at hmem
    rw [List.mem_filter] at hmem
    intro hpriv
    have hv := hmem.2
    unfold roomVisibleTo at hv
    rw [hpriv] at hv
    simp [jsFalsyStr, hpf] at hv
  · intro hpriv
    unfold handleGetRooms
    have hne : ((jsToLower u).isEmpty : Bool) = false := by simpa using hu
    rw [List.mem_filter]
    simp only [hne, Bool.false_eq_true, if_false]
    constructor
    · rintro ⟨hmem, hv⟩
      refine ⟨hmem, ?_⟩
      unfold roomVisibleTo at hv
      rw [hpriv] at hv
      simp only [jsFalsyStr] at hv
      cases hms : r.members with
      | none => rw [hms] at hv; simp [hpf] at hv
      | some ms =>
        rw [hms] at hv
        simp [hpf] at hv
        simpa [hms] using hv
    · rintro ⟨hmem, hin⟩
      refine ⟨hmem, ?_⟩
      unfold roomVisibleTo
      rw [hpriv]
      cases hms : r.members with
      | none => rw [hms] at hin; simp at hin
      | some ms =>
        rw [hms] at hin
        simp at hin
        simp [jsFalsyStr, hin]
  · intro hmem hpub v
    unfold handleGetRooms
    rw [List.mem_filter]
    refine ⟨hmem, ?_⟩
    unfold roomVisibleTo
    rw [if_pos hpub]
  · intro hmem
    unfold filterRoomsForUser at hmem
    rw [List.mem_filter] at hmem
    intro hpriv
    have hv := hmem.2
    rw [hpriv] at hv
    simp [jsFalsyStr, hpf] at hv
  · intro hpriv
    unfold filterRoomsForUser
    have hne : ((jsToLower u).isEmpty : Bool) = false := by simpa using hu
    simp only [hne, Bool.false_eq_true, if_false]
    rw [List.mem_filter]
    constructor
    · rintro ⟨hmem, hv⟩
      refine ⟨hmem, ?_⟩
      rw [hpriv] at hv
      simp only [jsFalsyStr] at hv
      cases hms : r.members with
      | none => rw [hms] at hv; simp [hpf] at hv
      | some ms =>
        rw [hms] at hv
        simp [hpf] at hv
        simpa [hms] using hv
    · rintro ⟨hmem, hin⟩
      refine ⟨hmem, ?_⟩
      rw [hpriv]
      cases hms : r.members with
      | none => rw [hms] at hin; simp at hin
      | some ms =>
        rw [hms] at hin
        simp at hin
        simp [jsFalsyStr, hin]

/-- Concrete chat store for the C7 witness: one public room and one
two-member private room. -/
def visibilityWitnessState : ChatState :=
  { rooms := [
      { id := "room1", name := "general", type := some "public", createdAt := 0,
        userCount := 0, members := none },
      { id := "room2", name := "@alice, @bob", type := some "private", createdAt := 0,
        userCount := 0, members := some ["alice", "bob"] }],
    messages := fun _ => [],
    users := fun _ => none,
    presence := [],
    roomUserSets := fun _ => [],
    shortCount := fun _ _ => 0,
    longCount := fun _ _ => 0,
    lastSent := fun _ _ => none }

/-- The detailed view of the private witness room. -/
def visibilityWitnessRoom : RoomWithUsers :=
  { id := "room2", name := "@alice, @bob", type := some "private", createdAt := 0,
    userCount := 0, members := some ["alice", "bob"], users := [] }

/-- Witness for C7 at the concrete store and private room. -/
theorem room_visibility_witness :
    ¬(jsToLower "Bob").isEmpty = true ∧
    ((visibilityWitnessRoom ∈ (handleGetRooms visibilityWitnessState none).1 →
      ¬visibilityWitnessRoom.type = some "private") ∧
    (visibilityWitnessRoom.type = some "private" →
      (visibilityWitnessRoom ∈ (handleGetRooms visibilityWitnessState (some "Bob")).1 ↔
        visibilityWitnessRoom ∈ (getDetailedRooms visibilityWitnessState).1 ∧
          (jsToLower "Bob") ∈ visibilityWitnessRoom.members.getD [])) ∧
    (visibilityWitnessRoom ∈ (getDetailedRooms visibilityWitnessState).1 →
      (jsFalsyStr visibilityWitnessRoom.type ||
        visibilityWitnessRoom.type == some "public") = true →
      ∀ v, visibilityWitnessRoom ∈ (handleGetRooms visibilityWitnessState v).1) ∧
    (visibilityWitnessRoom ∈
        filterRoomsForUser (getDetailedRooms visibilityWitnessState).1 none →
      ¬visibilityWitnessRoom.type = some "private") ∧
    (visibilityWitnessRoom.type = some "private" →
      (visibilityWitnessRoom ∈
          filterRoomsForUser (getDetailedRooms visibilityWitnessState).1
            (some (jsToLower "Bob")) ↔
        visibilityWitnessRoom ∈ (getDetailedRooms visibilityWitnessState).1 ∧
          jsToLower (jsToLower "Bob") ∈ visibilityWitnessRoom.members.getD []))) :=
  ⟨by decide, room_visibility visibilityWitnessState "Bob" visibilityWitnessRoom (by decide)⟩

/-! ### Send-pipeline reduction lemmas -/

/-- The burst-limiter state update of a passing public-room send: both
counters incremented, last-sent stamped. -/
def bumpBurst (s : ChatState) (roomId username : String) (now : Nat) : ChatState :=
  let s1 := { s with
    shortCount := bump2 s.shortCount roomId username (s.shortCount roomId username + 1) }
  let s2 := { s1 with
    longCount := bump2 s1.longCount roomId username (s1.longCount roomId username + 1) }
  { s2 with lastSent := setLast s2.lastSent roomId username (now / 1000) }

theorem usernameOk_length {s : String} (h : usernameOk s = true) :
    3 ≤ s.length ∧ s.length ≤ 30 := by
  unfold usernameOk at h
  cases hl : s.toList with
  | nil => rw [hl] at h; exact absurd h (by simp)
  | cons c rest =>
    rw [hl] at h
    simp only [Bool.and_eq_true, decide_eq_true_eq] at h
    exact ⟨h.1.1.2, h.1.2⟩

theorem ensureUserExists_ok (ip : String → Bool) (s : ChatState) (username : String)
    (now : Nat) (hprof : ip username = false) (husr : usernameOk username = true) :
    ∃ u s2, ensureUserExists ip s username now = .ok (u, s2) ∧
      s2.messages = s.messages ∧ s2.rooms = s.rooms ∧ s2.presence = s.presence ∧
      s2.shortCount = s.shortCount ∧ s2.longCount = s.longCount ∧
      s2.lastSent = s.lastSent := by
  obtain ⟨hlo, hhi⟩ := usernameOk_length husr
  unfold ensureUserExists
  rw [hprof]
  rw [if_neg (by simp)]
  rw [if_neg (by unfold MIN_USERNAME_LENGTH; omega)]
  rw [if_neg (by unfold MAX_USERNAME_LENGTH; omega)]
  rw [if_neg (by simp [husr])]
  cases hu : s.users username with
  | some u => exact ⟨u, s, rfl, rfl, rfl, rfl, rfl, rfl, rfl⟩
  | none =>
    refine ⟨_, _, rfl, rfl, rfl, rfl, rfl, rfl, rfl⟩

/-- A send to a private (non-public) room skips the burst limiter. -/
theorem handleSendMessage_private (clean : String → String) (ip : String → Bool)
    (s : ChatState) (roomId username content : String) (now : Nat) (newId : String)
    (room : Room)
    (hlow : jsToLower username = username) (husr : usernameOk username = true)
    (hrid : roomIdOk roomId = true) (hc : content.isEmpty = false)
    (hroom : findRoom s roomId = some room) (hpriv : isPublicRoom room = false) :
    handleSendMessage clean ip s roomId username content now newId =
      sendAfterRateLimit ip s roomId username (sanitizeContent clean content) now newId := by
  unfold handleSendMessage
  rw [hlow]
  rw [if_neg (by simp [husr])]
  rw [if_neg (by simp [hrid])]
  rw [if_neg (by simp [hc])]
  simp only [hroom]
  rw [if_neg (by simp [hpriv])]

/-- A send to a public room whose three burst rules all pass reduces to
the pipeline on the counter-bumped state. -/
theorem handleSendMessage_public_pass (clean : String → String) (ip : String → Bool)
    (s : ChatState) (roomId username content : String) (now : Nat) (newId : String)
    (room : Room)
    (hlow : jsToLower username = username) (husr : usernameOk username = true)
    (hrid : roomIdOk roomId = true) (hc : content.isEmpty = false)
    (hroom : findRoom s roomId = some room) (hpub : isPublicRoom room = true)
    (hok1 : s.shortCount roomId username + 1 ≤ CHAT_BURST_SHORT_LIMIT)
    (hok2 : s.longCount roomId username + 1 ≤ CHAT_BURST_LONG_LIMIT)
    (hok3 : ∀ last, s.lastSent roomId username = some last →
      ¬(now / 1000 - last < CHAT_MIN_INTERVAL_SECONDS)) :
    handleSendMessage clean ip s roomId username content now newId =
      sendAfterRateLimit ip (bumpBurst s roomId username now) roomId username
        (sanitizeContent clean content) now newId := by
  unfold handleSendMessage
  rw [hlow]
  rw [if_neg (by simp [husr])]
  rw [if_neg (by simp [hrid])]
  rw [if_neg (by simp [hc])]
  simp only [hroom]
  rw [if_pos (by simp [hpub])]
  rw [if_neg (by omega)]
  rw [if_neg (by omega)]
  have hint : (match s.lastSent roomId username with
      | some last => decide (now / 1000 - last < CHAT_MIN_INTERVAL_SECONDS)
      | none => false) = false := by
    cases hls : s.lastSent roomId username with
    | none => rfl
    | some last =>
      simp only [decide_eq_false_iff_not]
      exact hok3 last hls
  rw [hint]
  rw [if_neg (by simp)]
  rfl

/-- The three burst rules, each with its own 429 reason, in check order. -/
theorem handleSendMessage_burst_429 (clean : String → String) (ip : String → Bool)
    (s : ChatState) (roomId username content : String) (now : Nat) (newId : String)
    (room : Room)
    (hlow : jsToLower username = username) (husr : usernameOk username = true)
    (hrid : roomIdOk roomId = true) (hc : content.isEmpty = false)
    (hroom : findRoom s roomId = some room) (hpub : isPublicRoom room = true) :
    (s.shortCount roomId username + 1 > CHAT_BURST_SHORT_LIMIT →
      (handleSendMessage clean ip s roomId username content now newId).1 =
        createErrorResponse
          "You\x27re sending messages too quickly. Please slow down." 429) ∧
    (s.shortCount roomId username + 1 ≤ CHAT_BURST_SHORT_LIMIT →
      s.longCount roomId username + 1 > CHAT_BURST_LONG_LIMIT →
      (handleSendMessage clean ip s roomId username content now newId).1 =
        createErrorResponse
          "Too many messages in a short period. Please wait a moment." 429) ∧
    (s.shortCount roomId username + 1 ≤ CHAT_BURST_SHORT_LIMIT →
      s.longCount roomId username + 1 ≤ CHAT_BURST_LONG_LIMIT →
      ∀ last, s.lastSent roomId username = some last →
      now / 1000 - last < CHAT_MIN_INTERVAL_SECONDS →
      (handleSendMessage clean ip s roomId username content now newId).1 =
        createErrorResponse
          "Please wait a moment before sending another message." 429) := by
  unfold handleSendMessage
  rw [hlow]
  rw [if_neg (by simp [husr])]
  rw [if_neg (by simp [hrid])]
  rw [if_neg (by simp [hc])]
  simp only [hroom]
  rw [if_pos (by simp [hpub])]
  refine ⟨?_, ?_, ?_⟩
  · intro hshort
    rw [if_pos hshort]
  · intro hshort hlong
    rw [if_neg (by omega), if_pos hlong]
  · intro hshort hlong last hls hmin
    rw [if_neg (by omega), if_neg (by omega)]
    have hint : (match s.lastSent roomId username with
        | some l => decide (now / 1000 - l < CHAT_MIN_INTERVAL_SECONDS)
        | none => false) = true := by
      rw [hls]
      simpa using hmin
    rw [hint]
    rw [if_pos rfl]

/-- Pipeline outcome on a duplicate: the newest stored message from the
same user with the same sanitized content yields 400. -/
theorem sendAfterRateLimit_duplicate (ip : String → Bool) (s : ChatState)
    (roomId username sanitized : String) (now : Nat) (newId : String) (msg : Message)
    (hroom : (findRoom s roomId).isSome = true)
    (hprof : ip username = false) (husr : usernameOk username = true)
    (hlen : ¬(sanitized.length > MAX_MESSAGE_LENGTH))
    (hhead : (s.messages roomId).head? = some msg)
    (hmu : msg.username = username) (hmc : msg.content = sanitized) :
    (sendAfterRateLimit ip s roomId username sanitized now newId).1 =
      createErrorResponse "Duplicate message detected" 400 := by
  unfold sendAfterRateLimit
  rw [if_neg (by
    obtain ⟨r, hr⟩ := Option.isSome_iff_exists.mp hroom
    simp [hr])]
  obtain ⟨u2, s2, heu, hmsgs, -⟩ := ensureUserExists_ok ip s username now hprof husr
  rw [heu]
  dsimp only
  rw [if_neg hlen]
  have hdup : (match (s2.messages roomId).head? with
      | some m => m.username == username && m.content == sanitized
      | none => false) = true := by
    rw [hmsgs, hhead]
    simp [hmu, hmc]
  rw [hdup]
  rw [if_pos rfl]

/-- Pipeline outcome on a fresh (non-duplicate) message: 201 and the
message is pushed to the front of the room list with the sanitized
content. -/
theorem sendAfterRateLimit_success (ip : String → Bool) (s : ChatState)
    (roomId username sanitized : String) (now : Nat) (newId : String)
    (hroom : (findRoom s roomId).isSome = true)
    (hprof : ip username = false) (husr : usernameOk username = true)
    (hlen : ¬(sanitized.length > MAX_MESSAGE_LENGTH))
    (hnodup : ∀ m, (s.messages roomId).head? = some m →
      ¬(m.username = username ∧ m.content = sanitized)) :
    (sendAfterRateLimit ip s roomId username sanitized now newId).1 = okResponse 201 ∧
    ((sendAfterRateLimit ip s roomId username sanitized now newId).2.messages roomId).head? =
      some { id := newId, roomId := roomId, username := username,
             content := sanitized, timestamp := now } := by
  unfold sendAfterRateLimit
  rw [if_neg (by
    obtain ⟨r, hr⟩ := Option.isSome_iff_exists.mp hroom
    simp [hr])]
  obtain ⟨u2, s2, heu, hmsgs, -⟩ := ensureUserExists_ok ip s username now hprof husr
  rw [heu]
  dsimp only
  rw [if_neg hlen]
  have hdup : (match (s2.messages roomId).head? with
      | some m => m.username == username && m.content == sanitized
      | none => false) = false := by
    rw [hmsgs]
    cases hh : (s.messages roomId).head? with
    | none => rfl
    | some m =>
      have := hnodup m hh
      rw [Bool.eq_false_iff]
      intro hx
      simp only [Bool.and_eq_true, beq_iff_eq] at hx
      exact this ⟨hx.1, hx.2⟩
  rw [hdup]
  rw [if_neg (by simp)]
  constructor
  · rfl
  · simp

/-! ### Concrete chat stores for the send-message claims -/

/-- A store holding one private two-member room and nothing else. -/
def chatPrivState : ChatState :=
  { rooms := [
      { id := "room2", name := "@alice, @bob", type := some "private", createdAt := 0,
        userCount := 0, members := some ["alice", "bob"] }],
    messages := fun _ => [],
    users := fun _ => none,
    presence := [],
    roomUserSets := fun _ => [],
    shortCount := fun _ _ => 0,
    longCount := fun _ _ => 0,
    lastSent := fun _ _ => none }

/-- A store holding one public room and nothing else. -/
def chatPubState : ChatState :=
  { rooms := [
      { id := "room1", name := "general", type := some "public", createdAt := 0,
        userCount := 0, members := none }],
    messages := fun _ => [],
    users := fun _ => none,
    presence := [],
    roomUserSets := fun _ => [],
    shortCount := fun _ _ => 0,
    longCount := fun _ _ => 0,
    lastSent := fun _ _ => none }

/-- The private store with one stored message `hello` from `alice`. -/
def chatPrivStateWithMsg : ChatState :=
  { chatPrivState with messages := fun k =>
      if k = "room2" then
        [{ id := "m1", roomId := "room2", username := "alice", content := "hello",
           timestamp := 0 }]
      else [] }

/-! ### C1: duplicate submissions -/

/-- C1 counterexample: a first send succeeds with 201, and the identical
second submission from the same user in the same room is rejected with
HTTP status 400 — not 409 as the claim states. -/
theorem duplicate_rejection_status_counterexample :
    (handleSendMessage id (fun _ => false) chatPrivState "room2" "alice" "hello" 0 "m1").1 =
      okResponse 201 ∧
    ((handleSendMessage id (fun _ => false)
        (handleSendMessage id (fun _ => false) chatPrivState "room2" "alice" "hello" 0 "m1").2
        "room2" "alice" "hello" 2500 "m2").1).status = 400 ∧
    ¬((handleSendMessage id (fun _ => false)
        (handleSendMessage id (fun _ => false) chatPrivState "room2" "alice" "hello" 0 "m1").2
        "room2" "alice" "hello" 2500 "m2").1).status = 409 := by
  decide

/-- C1 (amended): when the newest stored message of the room has the same
username and the same sanitized content, `handleSendMessage` rejects the
submission with HTTP 400 ("Duplicate message detected"); a submission
whose sanitized content differs succeeds with 201 under the same
conditions. -/
theorem handleSendMessage_duplicate_400 (clean : String → String) (ip : String → Bool)
    (s : ChatState) (roomId username content content2 : String) (now : Nat)
    (newId newId2 : String) (room : Room) (msg : Message)
    (hlow : jsToLower username = username) (husr : usernameOk username = true)
    (hrid : roomIdOk roomId = true) (hc : content.isEmpty = false)
    (hc2 : content2.isEmpty = false)
    (hprof : ip username = false)
    (hroom : findRoom s roomId = some room)
    (hgate : isPublicRoom room = true →
      s.shortCount roomId username + 1 ≤ CHAT_BURST_SHORT_LIMIT ∧
      s.longCount roomId username + 1 ≤ CHAT_BURST_LONG_LIMIT ∧
      (∀ last, s.lastSent roomId username = some last →
        ¬(now / 1000 - last < CHAT_MIN_INTERVAL_SECONDS)))
    (hhead : (s.messages roomId).head? = some msg)
    (hmu : msg.username = username)
    (hmc : msg.content = sanitizeContent clean content)
    (hlen : ¬((sanitizeContent clean content).length > MAX_MESSAGE_LENGTH))
    (hlen2 : ¬((sanitizeContent clean content2).length > MAX_MESSAGE_LENGTH))
    (hdiff : sanitizeContent clean content2 ≠ sanitizeContent clean content) :
    (handleSendMessage clean ip s roomId username content now newId).1 =
      createErrorResponse "Duplicate message detected" 400 ∧
    (handleSendMessage clean ip s roomId username content2 now newId2).1 =
      okResponse 201 := by
  have hroomS : (findRoom s roomId).isSome = true := by rw [hroom]; rfl
  by_cases hpub : isPublicRoom room = true
  · obtain ⟨h1, h2, h3⟩ := hgate hpub
    constructor
    · rw [handleSendMessage_public_pass clean ip s roomId username content now newId room
        hlow husr hrid hc hroom hpub h1 h2 h3]
      exact sendAfterRateLimit_duplicate ip (bumpBurst s roomId username now) roomId username
        (sanitizeContent clean content) now newId msg hroomS hprof husr hlen hhead hmu hmc
    · rw [handleSendMessage_public_pass clean ip s roomId username content2 now newId2 room
        hlow husr hrid hc2 hroom hpub h1 h2 h3]
      exact (sendAfterRateLimit_success ip (bumpBurst s roomId username now) roomId username
        (sanitizeContent clean content2) now newId2 hroomS hprof husr hlen2
        (by
          intro m hm hx
          have hm2 : (s.messages roomId).head? = some m := hm
          rw [hhead] at hm2
          injection hm2 with hm2
          rw [← hm2] at hx
          exact hdiff (hx.2.symm.trans hmc))).1
  · have hpriv : isPublicRoom room = false := by
      rwa [Bool.not_eq_true] at hpub
    constructor
    · rw [handleSendMessage_private clean ip s roomId username content now newId room
        hlow husr hrid hc hroom hpriv]
      exact sendAfterRateLimit_duplicate ip s roomId username
        (sanitizeContent clean content) now newId msg hroomS hprof husr hlen hhead hmu hmc
    · rw [handleSendMessage_private clean ip s roomId username content2 now newId2 room
        hlow husr hrid hc2 hroom hpriv]
      exact (sendAfterRateLimit_success ip s roomId username
        (sanitizeContent clean content2) now newId2 hroomS hprof husr hlen2
        (by
          intro m hm hx
          have hm2 : (s.messages roomId).head? = some m := hm
          rw [hhead] at hm2
          injection hm2 with hm2
          rw [← hm2] at hx
          exact hdiff (hx.2.symm.trans hmc))).1

/-- Witness for the amended C1 at a concrete private room. -/
theorem handleSendMessage_duplicate_400_witness :
    (handleSendMessage id (fun _ => false) chatPrivStateWithMsg "room2" "alice" "hello"
        2500 "m2").1 = createErrorResponse "Duplicate message detected" 400 ∧
    (handleSendMessage id (fun _ => false) chatPrivStateWithMsg "room2" "alice" "world"
        2500 "m3").1 = okResponse 201 :=
  handleSendMessage_duplicate_400 id (fun _ => false) chatPrivStateWithMsg "room2" "alice"
    "hello" "world" 2500 "m2" "m3"
    { id := "room2", name := "@alice, @bob", type := some "private", createdAt := 0,
      userCount := 0, members := some ["alice", "bob"] }
    { id := "m1", roomId := "room2", username := "alice", content := "hello", timestamp := 0 }
    (by decide) (by decide) (by decide) (by decide) (by decide) rfl (by decide)
    (fun h => absurd h (by decide))
    (by decide) (by decide) (by decide) (by decide) (by decide) (by decide)

/-! ### C2: sanitization order and URL round-trip -/

/-- C2: sanitization is always the profanity filter (URL spans split out
and reassembled unchanged) followed by HTML escaping of `&<>"'`; for the
round-trip input the persisted content has the script tag escaped and the
URL byte-for-byte intact.  `clean` is the external filter; the hypothesis
pins its value on the only non-URL segment of the concrete input (which
contains no profanity). -/
theorem sanitization_order_and_url_roundtrip (clean : String → String)
    (hclean : clean "<script>alert(1)</script> see " = "<script>alert(1)</script> see ") :
    (∀ raw, sanitizeContent clean raw =
      escapeHTML (filterProfanityPreservingUrls clean raw)) ∧
    sanitizeContent clean "<script>alert(1)</script> see http://x.test" =
      "&lt;script&gt;alert(1)&lt;/script&gt; see http://x.test" ∧
    ((handleSendMessage clean (fun _ => false) chatPrivState "room2" "alice"
        "<script>alert(1)</script> see http://x.test" 0 "m1").2.messages "room2").head? =
      some { id := "m1", roomId := "room2", username := "alice",
             content := "&lt;script&gt;alert(1)&lt;/script&gt; see http://x.test",
             timestamp := 0 } := by
  have hfil : filterProfanityPreservingUrls clean
      "<script>alert(1)</script> see http://x.test" =
      ("" ++ clean "<script>alert(1)</script> see " ++ "http://x.test") ++ "" := rfl
  have hsan : sanitizeContent clean "<script>alert(1)</script> see http://x.test" =
      "&lt;script&gt;alert(1)&lt;/script&gt; see http://x.test" := by
    unfold sanitizeContent
    rw [hfil, hclean]
    decide
  refine ⟨fun raw => rfl, hsan, ?_⟩
  simp only [handleSendMessage, hsan]
  decide

/-- Witness for C2 with the identity filter. -/
theorem sanitization_order_and_url_roundtrip_witness :
    (∀ raw, sanitizeContent id raw =
      escapeHTML (filterProfanityPreservingUrls id raw)) ∧
    sanitizeContent id "<script>alert(1)</script> see http://x.test" =
      "&lt;script&gt;alert(1)&lt;/script&gt; see http://x.test" ∧
    ((handleSendMessage id (fun _ => false) chatPrivState "room2" "alice"
        "<script>alert(1)</script> see http://x.test" 0 "m1").2.messages "room2").head? =
      some { id := "m1", roomId := "room2", username := "alice",
             content := "&lt;script&gt;alert(1)&lt;/script&gt; see http://x.test",
             timestamp := 0 } :=
  sanitization_order_and_url_roundtrip id rfl

/-! ### C9: length limit applies to the sanitized content -/

/-- 201 ampersands: raw length well under the limit, escaped length far
over it. -/
def ampRaw : String :=
  String.mk (List.replicate 201 '&')

/-- Pipeline outcome when the sanitized content is over the cap. -/
theorem sendAfterRateLimit_too_long (ip : String → Bool) (s : ChatState)
    (roomId username sanitized : String) (now : Nat) (newId : String)
    (hroom : (findRoom s roomId).isSome = true)
    (hprof : ip username = false) (husr : usernameOk username = true)
    (hlen : sanitized.length > MAX_MESSAGE_LENGTH) :
    (sendAfterRateLimit ip s roomId username sanitized now newId).1 =
      createErrorResponse "Message exceeds maximum length of 1000 characters" 400 := by
  unfold sendAfterRateLimit
  rw [if_neg (by
    obtain ⟨r, hr⟩ := Option.isSome_iff_exists.mp hroom
    simp [hr])]
  obtain ⟨u2, s2, heu, -⟩ := ensureUserExists_ok ip s username now hprof husr
  rw [heu]
  dsimp only
  rw [if_pos hlen]

set_option maxRecDepth 8192 in
/-- C9: the 1000-character cap is checked on the sanitized content, so a
raw message of 201 characters (ampersands, escaping to 1005 characters) is
rejected with the 400 length error; in general, whenever the sanitized
content exceeds the cap the message is rejected, regardless of the raw
length. -/
theorem length_check_uses_sanitized (clean : String → String)
    (hclean : clean ampRaw = ampRaw) :
    ampRaw.length = 201 ∧
    (sanitizeContent clean ampRaw).length = 1005 ∧
    MAX_MESSAGE_LENGTH = 1000 ∧
    (handleSendMessage clean (fun _ => false) chatPrivState "room2" "alice" ampRaw 0 "m1").1 =
      createErrorResponse "Message exceeds maximum length of 1000 characters" 400 ∧
    (∀ ip s roomId username content now newId room,
      jsToLower username = username → usernameOk username = true →
      roomIdOk roomId = true → content.isEmpty = false → ip username = false →
      findRoom s roomId = some room → isPublicRoom room = false →
      (sanitizeContent clean content).length > MAX_MESSAGE_LENGTH →
      (handleSendMessage clean ip s roomId username content now newId).1 =
        createErrorResponse "Message exceeds maximum length of 1000 characters" 400) := by
  have hfil : filterProfanityPreservingUrls clean ampRaw = clean ampRaw := rfl
  have hsan : sanitizeContent clean ampRaw = escapeHTML ampRaw := by
    unfold sanitizeContent
    rw [hfil, hclean]
  have hgen : ∀ ip s roomId username content now newId room,
      jsToLower username = username → usernameOk username = true →
      roomIdOk roomId = true → content.isEmpty = false → ip username = false →
      findRoom s roomId = some room → isPublicRoom room = false →
      (sanitizeContent clean content).length > MAX_MESSAGE_LENGTH →
      (handleSendMessage clean ip s roomId username content now newId).1 =
        createErrorResponse "Message exceeds maximum length of 1000 characters" 400 := by
    intro ip s roomId username content now newId room hlow husr hrid hc hprof hroom hpriv hlen
    rw [handleSendMessage_private clean ip s roomId username content now newId room
      hlow husr hrid hc hroom hpriv]
    exact sendAfterRateLimit_too_long ip s roomId username
      (sanitizeContent clean content) now newId (by rw [hroom]; rfl) hprof husr hlen
  refine ⟨by decide, ?_, rfl, ?_, hgen⟩
  · rw [hsan]
    decide
  · exact hgen (fun _ => false) chatPrivState "room2" "alice" ampRaw 0 "m1"
      { id := "room2", name := "@alice, @bob", type := some "private", createdAt := 0,
        userCount := 0, members := some ["alice", "bob"] }
      (by decide) (by decide) (by decide) (by decide) rfl rfl (by decide)
      (by rw [hsan]; decide)

/-- Witness for C9 with the identity filter. -/
theorem length_check_uses_sanitized_witness :
    ampRaw.length = 201 ∧
    (sanitizeContent id ampRaw).length = 1005 ∧
    MAX_MESSAGE_LENGTH = 1000 ∧
    (handleSendMessage id (fun _ => false) chatPrivState "room2" "alice" ampRaw 0 "m1").1 =
      createErrorResponse "Message exceeds maximum length of 1000 characters" 400 ∧
    (∀ ip s roomId username content now newId room,
      jsToLower username = username → usernameOk username = true →
      roomIdOk roomId = true → content.isEmpty = false → ip username = false →
      findRoom s roomId = some room → isPublicRoom room = false →
      (sanitizeContent id content).length > MAX_MESSAGE_LENGTH →
      (handleSendMessage id ip s roomId username content now newId).1 =
        createErrorResponse "Message exceeds maximum length of 1000 characters" 400) :=
  length_check_uses_sanitized id rfl

/-! ### C6: burst rate limiting in public rooms only -/

/-- Run a sequence of sends `(content, time, id)` through
`handleSendMessage`, collecting the responses. -/
def sendSeq (clean : String → String) (ip : String → Bool) (s : ChatState)
    (roomId username : String) :
    List (String × Nat × String) → List HttpResponse × ChatState
  | [] => ([], s)
  | (c, t, i) :: rest =>
    let r := handleSendMessage clean ip s roomId username c t i
    let p := sendSeq clean ip r.2 roomId username rest
    (r.1 :: p.1, p.2)

/-- `handleSendMessage` depends on the profanity filter only through the
sanitized content. -/
theorem handleSendMessage_clean_congr (clean clean2 : String → String)
    (ip : String → Bool) (s : ChatState) (roomId username content : String)
    (now : Nat) (newId : String)
    (h : sanitizeContent clean content = sanitizeContent clean2 content) :
    handleSendMessage clean ip s roomId username content now newId =
      handleSendMessage clean2 ip s roomId username content now newId := by
  unfold handleSendMessage
  rw [h]

/-- C6: public-room sends pass a short-window counter (3/10s), a
long-window counter (20/60s) and a 2-second minimum interval, each
rejecting with 429 and its own reason; four spaced sends within the short
window make the fourth fail with the short-burst 429, while the same
burst in a private room fully succeeds. -/
theorem burst_limiter_public_rooms_only (clean : String → String)
    (h1 : clean "one" = "one") (h2 : clean "two" = "two")
    (h3 : clean "three" = "three") (h4 : clean "four" = "four") :
    (∀ (ip : String → Bool) (s : ChatState) (roomId username content : String)
       (now : Nat) (newId : String) (room : Room),
      jsToLower username = username → usernameOk username = true →
      roomIdOk roomId = true → content.isEmpty = false →
      findRoom s roomId = some room → isPublicRoom room = true →
      ((s.shortCount roomId username + 1 > CHAT_BURST_SHORT_LIMIT →
        (handleSendMessage clean ip s roomId username content now newId).1 =
          createErrorResponse
            "You\x27re sending messages too quickly. Please slow down." 429) ∧
       (s.shortCount roomId username + 1 ≤ CHAT_BURST_SHORT_LIMIT →
        s.longCount roomId username + 1 > CHAT_BURST_LONG_LIMIT →
        (handleSendMessage clean ip s roomId username content now newId).1 =
          createErrorResponse
            "Too many messages in a short period. Please wait a moment." 429) ∧
       (s.shortCount roomId username + 1 ≤ CHAT_BURST_SHORT_LIMIT →
        s.longCount roomId username + 1 ≤ CHAT_BURST_LONG_LIMIT →
        ∀ last, s.lastSent roomId username = some last →
        now / 1000 - last < CHAT_MIN_INTERVAL_SECONDS →
        (handleSendMessage clean ip s roomId username content now newId).1 =
          createErrorResponse
            "Please wait a moment before sending another message." 429))) ∧
    CHAT_BURST_SHORT_LIMIT + 1 = 4 ∧
    (sendSeq clean (fun _ => false) chatPubState "room1" "alice"
        [("one", 0, "m1"), ("two", 2000, "m2"), ("three", 4000, "m3"),
         ("four", 6000, "m4")]).1 =
      [okResponse 201, okResponse 201, okResponse 201,
       createErrorResponse
         "You\x27re sending messages too quickly. Please slow down." 429] ∧
    (sendSeq clean (fun _ => false) chatPrivState "room2" "alice"
        [("one", 0, "m1"), ("two", 2000, "m2"), ("three", 4000, "m3"),
         ("four", 6000, "m4")]).1 =
      [okResponse 201, okResponse 201, okResponse 201, okResponse 201] := by
  have hs1 : sanitizeContent clean "one" = sanitizeContent id "one" := by
    show escapeHTML (clean "one") = _
    rw [h1]
    rfl
  have hs2 : sanitizeContent clean "two" = sanitizeContent id "two" := by
    show escapeHTML (clean "two") = _
    rw [h2]
    rfl
  have hs3 : sanitizeContent clean "three" = sanitizeContent id "three" := by
    show escapeHTML (clean "three") = _
    rw [h3]
    rfl
  have hs4 : sanitizeContent clean "four" = sanitizeContent id "four" := by
    show escapeHTML (clean "four") = _
    rw [h4]
    rfl
  refine ⟨?_, rfl, ?_, ?_⟩
  · intro ip s roomId username content now newId room hlow husr hrid hc hroom hpub
    exact handleSendMessage_burst_429 clean ip s roomId username content now newId room
      hlow husr hrid hc hroom hpub
  · simp only [sendSeq]
    rw [handleSendMessage_clean_congr clean id _ _ _ _ "one" _ _ hs1,
      handleSendMessage_clean_congr clean id _ _ _ _ "two" _ _ hs2,
      handleSendMessage_clean_congr clean id _ _ _ _ "three" _ _ hs3,
      handleSendMessage_clean_congr clean id _ _ _ _ "four" _ _ hs4]
    decide
  · simp only [sendSeq]
    rw [handleSendMessage_clean_congr clean id _ _ _ _ "one" _ _ hs1,
      handleSendMessage_clean_congr clean id _ _ _ _ "two" _ _ hs2,
      handleSendMessage_clean_congr clean id _ _ _ _ "three" _ _ hs3,
      handleSendMessage_clean_congr clean id _ _ _ _ "four" _ _ hs4]
    decide

/-- Witness for C6 with the identity filter. -/
theorem burst_limiter_public_rooms_only_witness :
    (∀ (ip : String → Bool) (s : ChatState) (roomId username content : String)
       (now : Nat) (newId : String) (room : Room),
      jsToLower username = username → usernameOk username = true →
      roomIdOk roomId = true → content.isEmpty = false →
      findRoom s roomId = some room → isPublicRoom room = true →
      ((s.shortCount roomId username + 1 > CHAT_BURST_SHORT_LIMIT →
        (handleSendMessage id ip s roomId username content now newId).1 =
          createErrorResponse
            "You\x27re sending messages too quickly. Please slow down." 429) ∧
       (s.shortCount roomId username + 1 ≤ CHAT_BURST_SHORT_LIMIT →
        s.longCount roomId username + 1 > CHAT_BURST_LONG_LIMIT →
        (handleSendMessage id ip s roomId username content now newId).1 =
          createErrorResponse
            "Too many messages in a short period. Please wait a moment." 429) ∧
       (s.shortCount roomId username + 1 ≤ CHAT_BURST_SHORT_LIMIT →
        s.longCount roomId username + 1 ≤ CHAT_BURST_LONG_LIMIT →
        ∀ last, s.lastSent roomId username = some last →
        now / 1000 - last < CHAT_MIN_INTERVAL_SECONDS →
        (handleSendMessage id ip s roomId username content now newId).1 =
          createErrorResponse
            "Please wait a moment before sending another message." 429))) ∧
    CHAT_BURST_SHORT_LIMIT + 1 = 4 ∧
    (sendSeq id (fun _ => false) chatPubState "room1" "alice"
        [("one", 0, "m1"), ("two", 2000, "m2"), ("three", 4000, "m3"),
         ("four", 6000, "m4")]).1 =
      [okResponse 201, okResponse 201, okResponse 201,
       createErrorResponse
         "You\x27re sending messages too quickly. Please slow down." 429] ∧
    (sendSeq id (fun _ => false) chatPrivState "room2" "alice"
        [("one", 0, "m1"), ("two", 2000, "m2"), ("three", 4000, "m3"),
         ("four", 6000, "m4")]).1 =
      [okResponse 201, okResponse 201, okResponse 201, okResponse 201] :=
  burst_limiter_public_rooms_only id rfl rfl rfl rfl

/-! ### C3: leaving private rooms -/

theorem findRoom_id {s : ChatState} {roomId : String} {room : Room}
    (h : findRoom s roomId = some room) : room.id = roomId := by
  have := List.find?_some h
  simpa using this

theorem find?_filter_ne_none (l : List Room) (roomId : String) :
    (l.filter (fun r => r.id ≠ roomId)).find? (fun r => r.id == roomId) = none := by
  rw [List.find?_eq_none]
  intro x hx
  rw [List.mem_filter] at hx
  have h2 := hx.2
  simp only [decide_eq_true_eq] at h2
  simp [h2]

theorem find?_setRoomInList_self (l : List Room) (r : Room)
    (h : (l.find? (fun x => x.id == r.id)).isSome = true) :
    (setRoomInList l r).find? (fun x => x.id == r.id) = some r := by
  induction l with
  | nil => exact absurd h (by simp)
  | cons x rest ih =>
    by_cases hx : x.id = r.id
    · unfold setRoomInList
      rw [List.map_cons, if_pos (by simp [hx])]
      rw [List.find?_cons_of_pos _ (by simp)]
    · unfold setRoomInList
      rw [List.map_cons, if_neg (by simp [hx])]
      rw [List.find?_cons_of_neg _ (by simp [hx])]
      rw [List.find?_cons_of_neg _ (by simp [hx])] at h
      exact ih h

theorem find?_setRoomInList (l : List Room) (r : Room) (roomId : String)
    (hid : r.id = roomId)
    (h : (l.find? (fun x => x.id == roomId)).isSome = true) :
    (setRoomInList l r).find? (fun x => x.id == roomId) = some r := by
  subst hid
  exact find?_setRoomInList_self l r h

/-- C3: when a present member leaves a private room, they are removed from
`members`; the room (with its message list) is deleted exactly when fewer
than 2 members would remain — so a 2-member room is deleted on either
member leaving (a subsequent get answers 404 Room not found) while a
3-member room persists with the remaining members. -/
theorem handleLeaveRoom_private_membership (s : ChatState) (roomId usernameRaw : String)
    (room : Room) (ms : List String)
    (hlow : jsToLower usernameRaw = usernameRaw)
    (husr : usernameOk usernameRaw = true) (hrid : roomIdOk roomId = true)
    (hue : usernameRaw.isEmpty = false) (hre : roomId.isEmpty = false)
    (hroom : findRoom s roomId = some room)
    (hpriv : room.type = some "private") (hmem : room.members = some ms)
    (hpres : s.presence.contains (roomId, usernameRaw) = true) :
    (handleLeaveRoom s roomId usernameRaw).1 = okResponse 200 ∧
    ((ms.filter (fun m => m ≠ usernameRaw)).length ≤ 1 →
      findRoom (handleLeaveRoom s roomId usernameRaw).2 roomId = none ∧
      (handleLeaveRoom s roomId usernameRaw).2.messages roomId = [] ∧
      (handleGetRoom (handleLeaveRoom s roomId usernameRaw).2 roomId).1 =
        createErrorResponse "Room not found" 404) ∧
    (2 ≤ (ms.filter (fun m => m ≠ usernameRaw)).length →
      ∃ room2, findRoom (handleLeaveRoom s roomId usernameRaw).2 roomId = some room2 ∧
        room2.members = some (ms.filter (fun m => m ≠ usernameRaw)) ∧
        room2.type = some "private") := by
  have hid := findRoom_id hroom
  have hred : handleLeaveRoom s roomId usernameRaw =
      (let s1 := { s with
          presence := s.presence.filter (fun p => p ≠ (roomId, usernameRaw)) }
        let rc := refreshRoomUserCount s1 roomId
        let userCount := rc.1
        let s2 := rc.2
        let updatedMembers := (room.members.getD []).filter (fun m => m ≠ usernameRaw)
        if updatedMembers.length ≤ 1 then
          (okResponse 200,
           { s2 with
             rooms := s2.rooms.filter (fun r => r.id ≠ roomId),
             messages := fun k => if k = roomId then [] else s2.messages k,
             roomUserSets := fun k => if k = roomId then [] else s2.roomUserSets k })
        else
          (okResponse 200,
           { s2 with
             rooms := setRoomInList s2.rooms { room with members := some updatedMembers, userCount := userCount } })) := by
    unfold handleLeaveRoom
    rw [hlow]
    rw [if_neg (by simp [hue, hre])]
    rw [if_neg (by simp [husr])]
    rw [if_neg (by simp [hrid])]
    simp only [hroom]
    rw [if_pos (by simpa using hpres)]
    rw [if_pos (by simp [hpriv])]
  rw [hred, hmem]
  simp only [Option.getD_some]
  by_cases hlen : (ms.filter (fun m => m ≠ usernameRaw)).length ≤ 1
  · rw [if_pos hlen]
    refine ⟨rfl, fun _ => ⟨?_, by simp, ?_⟩, fun hge => absurd hlen (by omega)⟩
    · show ((refreshRoomUserCount _ roomId).2.rooms.filter
        (fun r => r.id ≠ roomId)).find? (fun r => r.id == roomId) = none
      exact find?_filter_ne_none _ roomId
    · unfold handleGetRoom
      rw [if_neg (by simp [hrid])]
      have hnone : findRoom
          { (refreshRoomUserCount { s with
              presence := s.presence.filter (fun p => p ≠ (roomId, usernameRaw)) } roomId).2 with
            rooms := (refreshRoomUserCount { s with
              presence := s.presence.filter (fun p => p ≠ (roomId, usernameRaw)) } roomId).2.rooms.filter
                (fun r => r.id ≠ roomId),
            messages := fun k => if k = roomId then [] else (refreshRoomUserCount { s with
              presence := s.presence.filter (fun p => p ≠ (roomId, usernameRaw)) } roomId).2.messages k,
            roomUserSets := fun k => if k = roomId then [] else (refreshRoomUserCount { s with
              presence := s.presence.filter (fun p => p ≠ (roomId, usernameRaw)) } roomId).2.roomUserSets k }
          roomId = none := find?_filter_ne_none _ roomId
      simp only [hnone]
  · rw [if_neg hlen]
    have hge : 2 ≤ (ms.filter (fun m => m ≠ usernameRaw)).length := by omega
    refine ⟨rfl, fun hle => absurd hle hlen, fun _ => ?_⟩
    have hfind1 : findRoom { s with
        presence := s.presence.filter (fun p => p ≠ (roomId, usernameRaw)) } roomId =
        some room := hroom
    have hfind1p : findRoom { s with
        presence := s.presence.filter (fun p => p ≠ (roomId, usernameRaw)),
        roomUserSets := fun k => if k = roomId then [] else s.roomUserSets k } roomId =
        some room := hroom
    have hrooms2 : (refreshRoomUserCount { s with
        presence := s.presence.filter (fun p => p ≠ (roomId, usernameRaw)) } roomId).2.rooms =
        setRoomInList s.rooms { room with
          userCount := (getActiveUsersInRoom { s with
            presence := s.presence.filter (fun p => p ≠ (roomId, usernameRaw)) } roomId).length } := by
      unfold refreshRoomUserCount getActiveUsersAndPrune
      simp only [hfind1p]
    refine ⟨{ room with
        members := some (ms.filter (fun m => m ≠ usernameRaw)),
        userCount := (refreshRoomUserCount { s with
          presence := s.presence.filter (fun p => p ≠ (roomId, usernameRaw)) } roomId).1 },
      ?_, rfl, by simp [hpriv]⟩
    show (setRoomInList _ _).find? (fun r => r.id == roomId) = _
    apply find?_setRoomInList _ _ roomId (by simpa using hid)
    rw [hrooms2]
    rw [find?_setRoomInList _ _ roomId (by simpa using hid)
      (by rw [show s.rooms.find? (fun x => x.id == roomId) = some room from hroom]; rfl)]
    rfl

/-- Two-member private room with `alice` present. -/
def leaveState2 : ChatState :=
  { rooms := [
      { id := "room2", name := "@alice, @bob", type := some "private", createdAt := 0,
        userCount := 2, members := some ["alice", "bob"] }],
    messages := fun _ => [],
    users := fun _ => none,
    presence := [("room2", "alice")],
    roomUserSets := fun _ => [],
    shortCount := fun _ _ => 0,
    longCount := fun _ _ => 0,
    lastSent := fun _ _ => none }

/-- Three-member private room with `alice` present. -/
def leaveState3 : ChatState :=
  { rooms := [
      { id := "room2", name := "@alice, @bob, @carol", type := some "private",
        createdAt := 0, userCount := 3, members := some ["alice", "bob", "carol"] }],
    messages := fun _ => [],
    users := fun _ => none,
    presence := [("room2", "alice")],
    roomUserSets := fun _ => [],
    shortCount := fun _ _ => 0,
    longCount := fun _ _ => 0,
    lastSent := fun _ _ => none }

/-- Witness for C3: the 2-member room is deleted when `alice` leaves (get
answers 404), the 3-member room persists with the remaining 2 members. -/
theorem handleLeaveRoom_private_membership_witness :
    (findRoom (handleLeaveRoom leaveState2 "room2" "alice").2 "room2" = none ∧
     (handleLeaveRoom leaveState2 "room2" "alice").2.messages "room2" = [] ∧
     (handleGetRoom (handleLeaveRoom leaveState2 "room2" "alice").2 "room2").1 =
       createErrorResponse "Room not found" 404) ∧
    (∃ room2, findRoom (handleLeaveRoom leaveState3 "room2" "alice").2 "room2" = some room2 ∧
      room2.members = some (["alice", "bob", "carol"].filter (fun m => m ≠ "alice")) ∧
      room2.type = some "private") :=
  ⟨(handleLeaveRoom_private_membership leaveState2 "room2" "alice"
      { id := "room2", name := "@alice, @bob", type := some "private", createdAt := 0,
        userCount := 2, members := some ["alice", "bob"] }
      ["alice", "bob"]
      (by decide) (by decide) (by decide) (by decide) (by decide) rfl rfl rfl
      (by decide)).2.1 (by decide),
   (handleLeaveRoom_private_membership leaveState3 "room2" "alice"
      { id := "room2", name := "@alice, @bob, @carol", type := some "private",
        createdAt := 0, userCount := 3, members := some ["alice", "bob", "carol"] }
      ["alice", "bob", "carol"]
      (by decide) (by decide) (by decide) (by decide) (by decide) rfl rfl rfl
      (by decide)).2.2 (by decide)⟩

end RyoChat
